import Mathlib

/-!
# Investigation game engine of `artificial_witness`

A shallow embedding of the game rules found in `backend/main.go` and
`backend/database/database.go`: the deterministic answer selector, the
elimination ledger, the derived flags and the scoring engine, together with the
properties the specification states about them.

Conventions of the embedding.

* Go's `int` is taken at its 64-bit width; integers are `Int`/`Nat` and the
  conversions `uint64(..)`, `int(..)` reduce explicitly.  The product that
  `increaseScore` computes is reduced to 64 bits, and the column `score` is an
  `INTEGER` of SQLite as long as a sum fits in 64 bits, a `REAL` afterwards.
* A Go function returning `(T, error)` returns a pair `T × Option String`; the
  value component is the one Go hands back next to a non-nil error.
* The SQLite store is a record of tables, each a list of rows in insertion
  order.  Values drawn from outside the program (`uuid.New()`,
  `TimestampNow()`, `RANDOM()`, `rand.IntN`, storage failures) are explicit
  arguments.
* A function that writes returns the store it leaves behind next to its Go
  results; where a run-time panic is possible the results are an `Outcome`.
* The wait of `WaitForAnswer` is a bounded loop over the passes of its poll; the
  clock is the number of sleeps plus an arbitrary lag.
-/

namespace ArtificialWitness

/-! ## Deterministic answer selector (`backend/main.go`) -/

/-- The value of Go's `uuid.UUID`, an array of 16 bytes. -/
structure UUID where
  bytes : List (Fin 256)
  size : bytes.length = 16

/-- The byte `b[i]` read as an unsigned number. -/
def byteAt (b : List (Fin 256)) (i : Nat) : Nat := (b.getD i 0).val

/-- Go's `binary.BigEndian.Uint64(b)`: the eight bytes shifted into place and
or-ed together. -/
def bigEndianUint64 (b : List (Fin 256)) : Nat :=
  byteAt b 7 ||| byteAt b 6 <<< 8 ||| byteAt b 5 <<< 16 ||| byteAt b 4 <<< 24 |||
    byteAt b 3 <<< 32 ||| byteAt b 2 <<< 40 ||| byteAt b 1 <<< 48 ||| byteAt b 0 <<< 56

/-- Go's conversion `uint64(x)` of an `int`. -/
def toUint64 (x : Int) : Nat := (x % 2 ^ 64).toNat

/-- Go's conversion `int(x)` of a `uint64`, for the 64-bit `int`. -/
def toGoInt (x : Nat) : Int :=
  if x % 2 ^ 64 < 2 ^ 63 then ((x % 2 ^ 64 : Nat) : Int) else ((x % 2 ^ 64 : Nat) : Int) - 2 ^ 64

/-- The result of an arithmetic operation on Go's `int`: the mathematical value
reduced to 64 bits in two's complement. -/
def wrapGoInt (x : Int) : Int := toGoInt (toUint64 x)

/-- The function `randomForThisInvestigation` of `main.go`.  The library call
`uuid.Parse` is the argument `parse`; `none` is its error result. -/
def randomForThisInvestigation (parse : String → Option UUID) (uuid : String)
    (choices : Int) : Int :=
  if choices ≤ 0 then 0
  else
    match parse uuid with
    | none => 0
    | some id =>
      let pseudoRandom := bigEndianUint64 (id.bytes.take 8)
      toGoInt (pseudoRandom % toUint64 choices)

/-- The unsigned big-endian number written by a sequence of bytes, most
significant byte first: the positional reading the specification refers to. -/
def bigEndianValue (b : List (Fin 256)) : Nat :=
  b.foldl (fun acc x => acc * 256 + x.val) 0

/-! ## Data model (`backend/database/database.go`) -/

/-- The Go struct `Suspect`. -/
structure Suspect where
  UUID : String := ""
  Image : String := ""
  Free : Bool := false
  Fled : Bool := false
  Timestamp : String := ""
  deriving DecidableEq, Repr

/-- The Go struct `Player`. -/
structure Player where
  UUID : String := ""
  Name : String := ""
  deriving DecidableEq, Repr

/-- The Go struct `Question`. -/
structure Question where
  UUID : String := ""
  English : String := ""
  Czech : String := ""
  Polish : String := ""
  Topic : String := ""
  Level : Int := 0
  deriving DecidableEq, Repr

/-- The Go struct `Elimination`; it is also the row format of the table
`eliminations`. -/
structure Elimination where
  UUID : String := ""
  RoundUUID : String := ""
  SuspectUUID : String := ""
  Timestamp : String := ""
  deriving DecidableEq, Repr

/-- The Go struct `Round`. -/
structure Round where
  UUID : String := ""
  InvestigationUUID : String := ""
  Question : Question := {}
  AnswerUUID : String := ""
  Answer : String := ""
  Eliminations : List Elimination := []
  Timestamp : String := ""
  deriving DecidableEq, Repr

/-- The Go struct `Investigation`. -/
structure Investigation where
  UUID : String := ""
  GameUUID : String := ""
  Suspects : List Suspect := []
  Rounds : List Round := []
  CriminalUUID : String := ""
  InvestigationOver : Bool := false
  Timestamp : String := ""
  deriving DecidableEq, Repr

/-- The Go struct `Game`. -/
structure Game where
  UUID : String := ""
  Score : Int := 0
  Investigator : Player := {}
  Timestamp : String := ""
  Model : String := ""
  Investigation : Investigation := {}
  Level : Int := 0
  GameOver : Bool := false
  deriving DecidableEq, Repr

/-- The constant `numSuspect`: how many suspects are in one investigation. -/
def numSuspect : Int := 15

/-- The inner loop of `isGameOver`: `true` as soon as an elimination names the
criminal. -/
def isGameOver.scanEliminations (criminalUUID : String) : List Elimination → Bool
  | [] => false
  | elimination :: rest =>
    if elimination.SuspectUUID = criminalUUID then true
    else isGameOver.scanEliminations criminalUUID rest

/-- The outer loop of `isGameOver` over the rounds. -/
def isGameOver.scanRounds (criminalUUID : String) : List Round → Bool
  | [] => false
  | round :: rest =>
    if isGameOver.scanEliminations criminalUUID round.Eliminations then true
    else isGameOver.scanRounds criminalUUID rest

/-- The function `isGameOver` of `database.go`. -/
def isGameOver (game : Game) : Bool :=
  isGameOver.scanRounds game.Investigation.CriminalUUID game.Investigation.Rounds

/-! ## The store

The tables are read off the SQL statements of `database.go`; a table is the list
of its rows in insertion order. -/

/-- A row of the table `suspects`. -/
structure SuspectRow where
  uuid : String := ""
  image : String := ""
  timestamp : String := ""
  deriving DecidableEq, Repr

/-- A number as SQLite keeps it in the column `score`: an `INTEGER` of 64 bits,
signed, or the `REAL` that an addition leaves once its sum has passed that
range.  The floating-point value of the `REAL` is outside the model. -/
inductive SqlNumber where
  | integer (value : Int) : SqlNumber
  | real : SqlNumber
  deriving DecidableEq, Repr

/-- A row of the table `games`. -/
structure GameRow where
  uuid : String := ""
  timestamp : String := ""
  score : SqlNumber := .integer 0
  investigator : String := ""
  player_uuid : String := ""
  model : String := ""
  deriving DecidableEq, Repr

/-- A row of the table `investigations`; `sus_uuid` holds the columns
`sus1_uuid` .. `sus15_uuid` in order. -/
structure InvestigationRow where
  uuid : String := ""
  game_uuid : String := ""
  timestamp : String := ""
  sus_uuid : List String := []
  criminal_uuid : String := ""
  deriving DecidableEq, Repr

/-- A row of the table `rounds`. -/
structure RoundRow where
  uuid : String := ""
  investigation_uuid : String := ""
  question_uuid : String := ""
  answer : String := ""
  timestamp : String := ""
  deriving DecidableEq, Repr

/-- The database behind the package variable `database`. -/
structure Store where
  suspects : List SuspectRow := []
  questions : List Question := []
  games : List GameRow := []
  investigations : List InvestigationRow := []
  rounds : List RoundRow := []
  eliminations : List Elimination := []
  deriving DecidableEq, Repr

/-- Which statements of a call the storage layer fails (`err != nil` from
`Exec`, `Query` or `QueryRow(..).Scan` for a reason other than a missing row).
The default is a storage layer that works. -/
structure Faults where
  insertElimination : Bool := false
  selectCriminal : Bool := false
  countInvestigations : Bool := false
  selectEliminations : Bool := false
  updateScore : Bool := false
  selectInvestigation : Bool := false
  selectRounds : Bool := false
  selectQuestion : Bool := false
  selectSuspect : Bool := false
  insertGame : Bool := false
  selectGame : Bool := false
  selectRandomQuestion : Bool := false
  insertRound : Bool := false
  selectRandomSuspects : Bool := false
  insertInvestigation : Bool := false
  updateAnswer : Bool := false
  rowsAffected : Bool := false
  selectAnswer : Bool := false
  selectModel : Bool := false
  selectService : Bool := false
  deriving DecidableEq, Repr

/-- Comparison of two texts character by character, as SQLite orders `TEXT`
values: `true` when the first is not after the second. -/
def textLe.chars : List Char → List Char → Bool
  | [], _ => true
  | _ :: _, [] => false
  | a :: as, b :: bs =>
    if a.toNat < b.toNat then true
    else if b.toNat < a.toNat then false
    else textLe.chars as bs

/-- The order of `TEXT` values used by `ORDER BY`. -/
def textLe (a b : String) : Bool := textLe.chars a.data b.data

/-- The clause `ORDER BY key ASC`; rows with equal keys keep their order. -/
def orderByAsc {α : Type} (key : α → String) (rows : List α) : List α :=
  List.insertionSort (fun a b => textLe (key a) (key b) = true) rows

/-- The clause `ORDER BY key DESC`; rows with equal keys keep their order. -/
def orderByDesc {α : Type} (key : α → String) (rows : List α) : List α :=
  List.insertionSort (fun a b => textLe (key b) (key a) = true) rows

/-- Modelled from the spec: the table declarations are in `default.db`, which is
not among the sources; persisted identifiers are unique, so the statement
`INSERT OR REPLACE INTO eliminations` drops a row with the same `UUID` before it
adds the new one. -/
def insertOrReplaceElimination (e : Elimination) (rows : List Elimination) : List Elimination :=
  rows.filter (fun x => x.UUID ≠ e.UUID) ++ [e]

/-! ## Suspects -/

/-- The function `GetSuspect`: the basic suspect data, without `Free` and
`Fled`. -/
def GetSuspect (db : Store) (f : Faults) (suspectUUID : String) : Suspect × Option String :=
  if f.selectSuspect then ({}, some "storage failure")
  else
    match db.suspects.find? (fun r => r.uuid = suspectUUID) with
    | none => ({}, some "sql: no rows in result set")
    | some r => ({ UUID := r.uuid, Image := r.image, Timestamp := r.timestamp }, none)

/-- The first loop of `getSuspectsInInvestigation`: the key set of the map
`eliminatedSuspectUUIDs`, filled from the eliminations of all rounds. -/
def eliminatedSuspectUUIDs (rounds : List Round) : List String :=
  rounds.foldl (fun m round => round.Eliminations.foldl (fun m e => m.insert e.SuspectUUID) m) []

/-- The body of the second loop of `getSuspectsInInvestigation` after the
suspect was loaded: set `Fled` or `Free` when the suspect was eliminated. -/
def markSuspect (eliminated : List String) (criminalUUID : String) (suspect : Suspect) : Suspect :=
  if suspect.UUID ∈ eliminated then
    if suspect.UUID = criminalUUID then { suspect with Fled := true }
    else { suspect with Free := true }
  else suspect

/-- The second loop of `getSuspectsInInvestigation`; `err` is overwritten by
every call of `GetSuspect`. -/
def getSuspectsInInvestigation.loop (db : Store) (f : Faults) (eliminated : List String)
    (criminalUUID : String) : List String → List Suspect → Option String →
    List Suspect × Option String
  | [], suspects, err => (suspects, err)
  | u :: rest, suspects, _ =>
    let r := GetSuspect db f u
    getSuspectsInInvestigation.loop db f eliminated criminalUUID rest
      (suspects ++ [markSuspect eliminated criminalUUID r.1]) r.2

/-- The function `getSuspectsInInvestigation`. -/
def getSuspectsInInvestigation (db : Store) (f : Faults) (suspectUUIDs : List String)
    (investigation : Investigation) : List Suspect × Option String :=
  getSuspectsInInvestigation.loop db f (eliminatedSuspectUUIDs investigation.Rounds)
    investigation.CriminalUUID suspectUUIDs [] none

/-! ## Rounds, eliminations, questions -/

/-- The function `getEliminationsForRound`. -/
def getEliminationsForRound (db : Store) (f : Faults) (roundUUID : String) :
    List Elimination × Option String :=
  if f.selectEliminations then ([], some "storage failure")
  else (orderByDesc (fun e => e.Timestamp) (db.eliminations.filter (fun e => e.RoundUUID = roundUUID)),
    none)

/-- The function `getQuestion`. -/
def getQuestion (db : Store) (f : Faults) (questionUUID : String) : Question × Option String :=
  if f.selectQuestion then ({ UUID := questionUUID }, some "storage failure")
  else
    match db.questions.find? (fun q => q.UUID = questionUUID) with
    | none => ({ UUID := questionUUID }, some "sql: no rows in result set")
    | some q =>
      ({ UUID := questionUUID, English := q.English, Czech := q.Czech, Polish := q.Polish,
         Topic := q.Topic, Level := q.Level }, none)

/-- The loop `for rows.Next()` of `getRounds`. -/
def getRounds.loop (db : Store) (f : Faults) : List RoundRow → List Round →
    List Round × Option String
  | [], rounds => (rounds, none)
  | row :: rest, rounds =>
    let round : Round :=
      { UUID := row.uuid, InvestigationUUID := row.investigation_uuid,
        Question := { UUID := row.question_uuid }, Answer := row.answer,
        Timestamp := row.timestamp }
    match getQuestion db f round.Question.UUID with
    | (_, some err) => (rounds, some err)
    | (question, none) =>
      match getEliminationsForRound db f round.UUID with
      | (_, some err) => (rounds, some err)
      | (eliminations, none) =>
        getRounds.loop db f rest
          (rounds ++ [{ round with Question := question, Eliminations := eliminations }])

/-- The function `getRounds`. -/
def getRounds (db : Store) (f : Faults) (investigationUUID : String) :
    List Round × Option String :=
  if f.selectRounds then ([], some "storage failure")
  else
    getRounds.loop db f
      (orderByAsc (fun r => r.timestamp)
        (db.rounds.filter (fun r => r.investigation_uuid = investigationUUID))) []

/-! ## Investigations -/

/-- The slice `suspects_uuids` of `getCurrentInvestigation` after the scan of
the fifteen columns. -/
def scanSuspectUUIDs (row : InvestigationRow) : List String :=
  (List.range 15).map (fun i => row.sus_uuid.getD i "")

/-- The loop of `getCurrentInvestigation` that adds up the eliminations of the
rounds. -/
def countEliminated (rounds : List Round) : Int :=
  rounds.foldl (fun eliminated round => eliminated + (round.Eliminations.length : Int)) 0

/-- The function `getCurrentInvestigation`. -/
def getCurrentInvestigation (db : Store) (f : Faults) (gameUUID : String) :
    Investigation × Option String :=
  let investigation : Investigation := { GameUUID := gameUUID }
  if f.selectInvestigation then (investigation, some "storage failure")
  else
    match (orderByDesc (fun r => r.timestamp)
        (db.investigations.filter (fun r => r.game_uuid = gameUUID))).head? with
    | none => (investigation, some "sql: no rows in result set")
    | some row =>
      let investigation :=
        { investigation with
          UUID := row.uuid, Timestamp := row.timestamp, CriminalUUID := row.criminal_uuid }
      let rounds := getRounds db f investigation.UUID
      let investigation := { investigation with Rounds := rounds.1 }
      match rounds.2 with
      | some err => (investigation, some err)
      | none =>
        let suspects := getSuspectsInInvestigation db f (scanSuspectUUIDs row) investigation
        let investigation := { investigation with Suspects := suspects.1 }
        match suspects.2 with
        | some err => (investigation, some err)
        | none =>
          let eliminated := countEliminated investigation.Rounds
          if eliminated = numSuspect - 1 then
            ({ investigation with InvestigationOver := true }, none)
          else (investigation, none)

/-! ## Level and score -/

/-- The function `GetLevel`: the number of investigations of the game. -/
def GetLevel (db : Store) (f : Faults) (gameUUID : String) : Int × Option String :=
  if f.countInvestigations then (-1, some "error counting investigations records")
  else (((db.investigations.filter (fun r => r.game_uuid = gameUUID)).length : Int), none)

/-- SQLite's `score + $1` for an `INTEGER` argument.  Two `INTEGER` values are
added exactly when the sum fits in 64 bits, signed; when it does not, SQLite
repeats the addition in floating point and the result is a `REAL` outside the
range of an `INTEGER`.  An addition to such a `REAL` is made in floating point
as well. -/
def sqliteAdd (score : SqlNumber) (amount : Int) : SqlNumber :=
  match score with
  | .integer value =>
    if -9223372036854775808 ≤ value + amount ∧ value + amount ≤ 9223372036854775807 then
      .integer (value + amount)
    else .real
  | .real => .real

/-- The statement `UPDATE games SET score = score + $1 WHERE uuid = $2`; the
argument `amount` is a Go `int`, bound as an `INTEGER`. -/
def updateScore (amount : Int) (gameUUID : String) (games : List GameRow) : List GameRow :=
  games.map
    (fun g => if g.uuid = gameUUID then { g with score := sqliteAdd g.score amount } else g)

/-- The function `increaseScore`; it returns nothing, the result is the store
it leaves behind. -/
def increaseScore (db : Store) (f : Faults) (gameUUID roundUUID : String) : Store :=
  match GetLevel db f gameUUID with
  | (_, some _) => db
  | (level, none) =>
    match getEliminationsForRound db f roundUUID with
    | (_, some _) => db
    | (eliminations, none) =>
      let amount := wrapGoInt (level * (eliminations.length : Int))
      if f.updateScore then db
      else { db with games := updateScore amount gameUUID db.games }

/-- The query `SELECT criminal_uuid, game_uuid FROM investigations WHERE uuid = $1`
of `SaveElimination` and its scan into `criminalUUID` and `gameUUID`; both stay
empty when the scan reports an error, which is logged and not returned. -/
def SaveElimination.scanCriminal (db : Store) (f : Faults) (investigationUUID : String) :
    String × String :=
  if f.selectCriminal then ("", "")
  else
    match db.investigations.find? (fun r => r.uuid = investigationUUID) with
    | none => ("", "")
    | some r => (r.criminal_uuid, r.game_uuid)

/-- The function `SaveElimination`.  The arguments `newUUID` and `timestamp` are
the results of `uuid.New().String()` and `TimestampNow()`. -/
def SaveElimination (db : Store) (f : Faults) (newUUID timestamp : String)
    (suspectUUID roundUUID investigationUUID : String) : Store × Option String :=
  if f.insertElimination then (db, some "storage failure")
  else
    let db1 : Store :=
      { db with
        eliminations :=
          insertOrReplaceElimination
            { UUID := newUUID, RoundUUID := roundUUID, SuspectUUID := suspectUUID,
              Timestamp := timestamp } db.eliminations }
    let found := SaveElimination.scanCriminal db1 f investigationUUID
    let criminalUUID := found.1
    let gameUUID := found.2
    if criminalUUID ≠ suspectUUID then (increaseScore db1 f gameUUID roundUUID, none)
    else (db1, none)

/-- The stored score of a game: the column `score` of the row of `games` with
the given `uuid`, `none` when there is no such row. -/
def storedScore (db : Store) (gameUUID : String) : Option SqlNumber :=
  (db.games.find? (fun g => g.uuid = gameUUID)).map (fun g => g.score)

/-! ## Creating rounds, investigations and games

What a call draws from outside is an argument: the identifier of `uuid.New()`,
the text of `TimestampNow()`, the values `RANDOM()` gives to the rows of a
query, and the raw value behind `rand.IntN`. -/

/-- How a call ends: it returns its results, or it aborts with a run-time
panic. -/
inductive Outcome (α : Type) where
  | returned (value : α) : Outcome α
  | panicked (message : String) : Outcome α
  deriving DecidableEq, Repr

/-- The clause `ORDER BY RANDOM()`: the i-th row gets the i-th drawn value (0
when none is left) and the rows are sorted by these values. -/
def orderByRandom {α : Type} (keys : List Nat) (rows : List α) : List α :=
  (List.insertionSort (fun a b : Nat × α => a.1 ≤ b.1)
    (rows.enum.map (fun x => (keys.getD x.1 0, x.2)))).map Prod.snd

/-- Go's `rand.IntN(n)`: a number of `[0, n)`, here the raw draw reduced modulo
`n`; `none` stands for its panic when `n ≤ 0`. -/
def intN (raw : Nat) (n : Int) : Option Int :=
  if n ≤ 0 then none else some ((raw : Int) % n)

/-- Modelled from the spec: the table declarations are in `default.db`, which is
not among the sources; persisted identifiers are unique, so the statement
`INSERT OR REPLACE INTO rounds` drops a row with the same `uuid` before it adds
the new one. -/
def insertOrReplaceRound (r : RoundRow) (rows : List RoundRow) : List RoundRow :=
  rows.filter (fun x => x.uuid ≠ r.uuid) ++ [r]

/-- Modelled from the spec: the table declarations are in `default.db`, which is
not among the sources; persisted identifiers are unique, so the statement
`INSERT OR REPLACE INTO investigations` drops a row with the same `uuid` before
it adds the new one. -/
def insertOrReplaceInvestigation (r : InvestigationRow) (rows : List InvestigationRow) :
    List InvestigationRow :=
  rows.filter (fun x => x.uuid ≠ r.uuid) ++ [r]

/-- The function `GetRandomQuestion`. -/
def GetRandomQuestion (db : Store) (f : Faults) (keys : List Nat) : Question × Option String :=
  if f.selectRandomQuestion then ({}, some "storage failure")
  else
    match (orderByRandom keys db.questions).head? with
    | none => ({}, some "sql: no rows in result set")
    | some q => (q, none)

/-- The function `saveRound`. -/
def saveRound (db : Store) (f : Faults) (r : Round) : Store × Option String :=
  if f.insertRound then (db, some "storage failure")
  else
    ({ db with
       rounds :=
         insertOrReplaceRound
           { uuid := r.UUID, investigation_uuid := r.InvestigationUUID,
             question_uuid := r.Question.UUID, answer := r.Answer, timestamp := r.Timestamp }
           db.rounds }, none)

/-- What `NewRound` draws from outside. -/
structure RoundDraw where
  uuid : String
  timestamp : String
  questionKeys : List Nat := []
  deriving DecidableEq, Repr

/-- The function `NewRound`: the store it leaves, the round and the error. -/
def NewRound (db : Store) (f : Faults) (d : RoundDraw) (investigationUUID : String) :
    Store × Round × Option String :=
  let r : Round :=
    { UUID := d.uuid, InvestigationUUID := investigationUUID, Timestamp := d.timestamp }
  let q := GetRandomQuestion db f d.questionKeys
  match q.2 with
  | some err => (db, r, some err)
  | none =>
    let r := { r with Question := q.1 }
    let saved := saveRound db f r
    (saved.1, r, saved.2)

/-- The function `randomSuspects`: up to `numSuspect` rows of the catalogue in
random order. -/
def randomSuspects (db : Store) (f : Faults) (keys : List Nat) : List Suspect × Option String :=
  if f.selectRandomSuspects then ([], some "storage failure")
  else
    (((orderByRandom keys db.suspects).take numSuspect.toNat).map
      (fun r => { UUID := r.uuid, Image := r.image, Timestamp := r.timestamp }), none)

/-- The function `saveInvestigation`; after the check of the length the fifteen
suspect columns are `Suspects[0].UUID` .. `Suspects[14].UUID`. -/
def saveInvestigation (db : Store) (f : Faults) (investigation : Investigation) :
    Store × Option String :=
  if investigation.Suspects.length ≠ 15 then
    (db, some "Investigation does not have 15 suspects")
  else if f.insertInvestigation then (db, some "storage failure")
  else
    ({ db with
       investigations :=
         insertOrReplaceInvestigation
           { uuid := investigation.UUID, game_uuid := investigation.GameUUID,
             timestamp := investigation.Timestamp,
             sus_uuid := investigation.Suspects.map (fun s => s.UUID),
             criminal_uuid := investigation.CriminalUUID }
           db.investigations }, none)

/-- What `NewInvestigation` draws from outside. -/
structure InvestigationDraw where
  uuid : String
  timestamp : String
  round : RoundDraw
  suspectKeys : List Nat := []
  criminal : Nat := 0
  deriving DecidableEq, Repr

/-- The function `NewInvestigation`: the store it leaves and how it ends. -/
def NewInvestigation (db : Store) (f : Faults) (d : InvestigationDraw) (gameUUID : String) :
    Store × Outcome (Investigation × Option String) :=
  let i : Investigation := { UUID := d.uuid, GameUUID := gameUUID, Timestamp := d.timestamp }
  let round := NewRound db f d.round i.UUID
  match round.2.2 with
  | some err => (round.1, .returned (i, some err))
  | none =>
    let i := { i with Rounds := i.Rounds ++ [round.2.1] }
    let suspects := randomSuspects round.1 f d.suspectKeys
    match suspects.2 with
    | some err => (round.1, .returned (i, some err))
    | none =>
      let i := { i with Suspects := suspects.1 }
      match intN d.criminal (suspects.1.length : Int) with
      | none => (round.1, .panicked "invalid argument to IntN")
      | some cn =>
        let i := { i with CriminalUUID := (i.Suspects.getD cn.toNat {}).UUID }
        let saved := saveInvestigation round.1 f i
        (saved.1, .returned (i, saved.2))

/-- The constant `defaultPlayerName`. -/
def defaultPlayerName : String := "anonymous"

/-- Modelled from the spec: the table declarations are in `default.db`, which is
not among the sources; persisted identifiers are unique, so the plain `INSERT`
of `saveGame` fails when a game with the same `uuid` is stored. -/
def saveGame (db : Store) (f : Faults) (game : Game) : Store × Option String :=
  if f.insertGame then (db, some "storage failure")
  else if db.games.any (fun g => g.uuid = game.UUID) then
    (db, some "UNIQUE constraint failed: games.uuid")
  else
    ({ db with
       games :=
         db.games ++
           [{ uuid := game.UUID, timestamp := game.Timestamp, score := .integer game.Score,
              investigator := game.Investigator.Name, player_uuid := game.Investigator.UUID,
              model := game.Model }] }, none)

/-- What `NewGame` draws from outside. -/
structure GameDraw where
  uuid : String
  timestamp : String
  investigation : InvestigationDraw
  deriving DecidableEq, Repr

/-- The function `NewGame`: the store it leaves and how it ends. -/
def NewGame (db : Store) (f : Faults) (d : GameDraw) (playerUUID model : String) :
    Store × Outcome (Game × Option String) :=
  let game : Game :=
    { UUID := d.uuid, Timestamp := d.timestamp, Score := 0, Model := model,
      Investigator := { UUID := playerUUID, Name := defaultPlayerName } }
  let saved := saveGame db f game
  match saved.2 with
  | some err => (saved.1, .returned (game, some err))
  | none =>
    let created := NewInvestigation saved.1 f d.investigation game.UUID
    match created.2 with
    | .panicked message => (created.1, .panicked message)
    | .returned (investigation, some err) =>
      (created.1, .returned ({ game with Investigation := investigation }, some err))
    | .returned (investigation, none) =>
      let game := { game with Investigation := investigation }
      let level := GetLevel created.1 f game.UUID
      (created.1, .returned ({ game with Level := level.1 }, level.2))

/-- The function `GetCurrentGame`; the draw is used when it creates a game.
The scan `row.Scan(&game.UUID, &game.Timestamp, &game.Score, &game.Model)` fills
the fields in order and stops at a `score` that is a `REAL`: the driver hands it
over as a `float64`, whose text in exponent form does not convert to an `int`. -/
def GetCurrentGame (db : Store) (f : Faults) (d : GameDraw) (playerUUID : String) :
    Store × Outcome (Game × Option String) :=
  if f.selectGame then (db, .returned ({}, some "storage failure"))
  else
    match (orderByDesc (fun g => g.timestamp)
        (db.games.filter (fun g => g.player_uuid = playerUUID))).head? with
    | none => NewGame db f d "" ""
    | some row =>
      match row.score with
      | .real =>
        (db, .returned ({ UUID := row.uuid, Timestamp := row.timestamp },
          some "sql: Scan error on column index 2: converting driver.Value type float64 to a int"))
      | .integer score =>
        let game : Game :=
          { UUID := row.uuid, Timestamp := row.timestamp, Score := score, Model := row.model }
        let investigation := getCurrentInvestigation db f game.UUID
        let game := { game with Investigation := investigation.1 }
        match investigation.2 with
        | some err => (db, .returned (game, some err))
        | none =>
          let level := GetLevel db f game.UUID
          let game := { game with Level := level.1 }
          match level.2 with
          | some err => (db, .returned (game, some err))
          | none => (db, .returned ({ game with GameOver := isGameOver game }, none))

/-! ## Answers -/

/-- The statement `UPDATE rounds SET answer = $1 WHERE uuid = $2`. -/
def updateAnswer (answer roundUUID : String) (rounds : List RoundRow) : List RoundRow :=
  rounds.map (fun r => if r.uuid = roundUUID then { r with answer := answer } else r)

/-- The function `SaveAnswer`. -/
def SaveAnswer (db : Store) (f : Faults) (answer roundUUID : String) : Store × Option String :=
  if f.updateAnswer then (db, some "storage failure")
  else
    let db1 : Store := { db with rounds := updateAnswer answer roundUUID db.rounds }
    if f.rowsAffected then (db1, some "storage failure")
    else (db1, none)

/-- What one query `SELECT answer FROM rounds WHERE uuid = $1` of `WaitForAnswer`
yields. -/
inductive Poll where
  | noRows : Poll
  | failure : Poll
  | answer (text : String) : Poll
  deriving DecidableEq, Repr

/-- The query and scan at the head of the loop of `WaitForAnswer`. -/
def WaitForAnswer.poll (db : Store) (f : Faults) (roundUUID : String) : Poll :=
  if f.selectAnswer then .failure
  else
    match db.rounds.find? (fun r => r.uuid = roundUUID) with
    | none => .noRows
    | some r => .answer r.answer

/-- One second, in the nanoseconds of `time.Duration`. -/
def second : Nat := 1000000000

/-- The loop of `WaitForAnswer`, at its `k`-th pass.  The store and the storage
failures seen by the pass are `world k` and `faults k`; the pass checks the
clock `k` sleeps of one second and a lag of `lag k` nanoseconds after `start`.
The first argument bounds the number of passes; `none` means it was too
small. -/
def WaitForAnswer.loop (world : Nat → Store) (faults : Nat → Faults) (lag : Nat → Nat)
    (roundUUID : String) : Nat → Nat → Option String
  | 0, _ => none
  | fuel + 1, k =>
    let timeout := 60 * second
    let pollInterval := 1 * second
    let next :=
      if k * pollInterval + lag k > timeout then some ""
      else WaitForAnswer.loop world faults lag roundUUID fuel (k + 1)
    match WaitForAnswer.poll (world k) (faults k) roundUUID with
    | .noRows => next
    | .failure => some ""
    | .answer a => if a = "" then next else some a

/-- The function `WaitForAnswer`; 62 passes always suffice, because the 62nd
checks the clock at least 61 seconds after the start. -/
def WaitForAnswer (world : Nat → Store) (faults : Nat → Faults) (lag : Nat → Nat)
    (roundUUID : String) : Option String :=
  WaitForAnswer.loop world faults lag roundUUID 62 0

/-- The stored answer of a round: the column `answer` of the row of `rounds`
with the given `uuid`, `none` when there is no such row. -/
def storedAnswer (db : Store) (roundUUID : String) : Option String :=
  (db.rounds.find? (fun r => r.uuid = roundUUID)).map (fun r => r.answer)

/-! ## The answer handler (`backend/main.go`)

The handler reads the tables `models` and `services` of the same database; no
function of the game engine writes them, so they are kept beside `Store`.  The
functions `GetDescriptionsForSuspect` and `GenerateAnswer` of the package
`database` are not among the sources and are arguments of the handler. -/

/-- The Go struct `Service`; `Type_` is its field `Type`, and a `sql.NullString`
is an optional text. -/
structure Service where
  Name : String := ""
  API_style : Option String := none
  Type_ : String := ""
  URL : Option String := none
  Token : String := ""
  Active : Bool := false
  deriving DecidableEq, Repr

/-- The Go struct `Model`. -/
structure Model where
  Name : String := ""
  Service : String := ""
  Visual : Bool := false
  Allowed : Bool := false
  Historical : Bool := false
  deriving DecidableEq, Repr

/-- The Go struct `Description`. -/
structure Description where
  UUID : String := ""
  SuspectUUID : String := ""
  Service : String := ""
  Model : String := ""
  Description : String := ""
  Prompt : String := ""
  Timestamp : String := ""
  deriving DecidableEq, Repr

/-- The Go struct `Answer`. -/
structure Answer where
  UUID : String := ""
  Text : String := ""
  Timestamp : String := ""
  deriving DecidableEq, Repr

/-- The tables `models` and `services`. -/
structure ServiceStore where
  models : List Model := []
  services : List Service := []
  deriving DecidableEq, Repr

/-- The function `GetModel`. -/
def GetModel (tables : ServiceStore) (f : Faults) (name : String) : Model × Option String :=
  if f.selectModel then ({}, some ("error geting Model for name " ++ name))
  else
    match tables.models.find? (fun m => m.Name = name) with
    | none => ({}, some ("error geting Model for name " ++ name))
    | some m => (m, none)

/-- The function `GetServiceForModel`. -/
def GetServiceForModel (tables : ServiceStore) (f : Faults) (modelName : String) :
    Service × Option String :=
  let model := GetModel tables f modelName
  match model.2 with
  | some _ => ({}, some ("could not get model " ++ modelName ++ " for service lookup"))
  | none =>
    if f.selectService then ({}, some ("error geting Service for model " ++ modelName))
    else
      match tables.services.find? (fun s => s.Name = model.1.Service) with
      | none => ({}, some ("error geting Service for model " ++ modelName))
      | some s => (s, none)

/-- What the handler writes to its `http.ResponseWriter` after the header. -/
inductive Body where
  | text (message : String) : Body
  | answer (a : Answer) : Body
  deriving DecidableEq, Repr

/-- The response of a handler: the status of `w.WriteHeader` and the body of
`w.Write`. -/
structure Response where
  status : Nat
  body : Body
  deriving DecidableEq, Repr

/-- The constant `http.StatusOK`. -/
def StatusOK : Nat := 200

/-- The constant `http.StatusBadRequest`. -/
def StatusBadRequest : Nat := 400

/-- The constant `http.StatusTeapot`. -/
def StatusTeapot : Nat := 418

/-- The constant `http.StatusInternalServerError`. -/
def StatusInternalServerError : Nat := 500

/-- The function `GetOrGenerateAnswerHandler`, on the value of the query
parameter `player_uuid`: the store it leaves and how it ends.  An index
expression on an index outside the slice is the run-time panic of Go.  The
arguments `descriptionsFor` and `generate` are the results of
`GetDescriptionsForSuspect` and `GenerateAnswer`, `parse` is `uuid.Parse`. -/
def GetOrGenerateAnswerHandler (parse : String → Option UUID)
    (descriptionsFor : String → String → Bool → List Description × Option String)
    (generate : String → String → String → Service → String × Option String)
    (tables : ServiceStore) (db : Store) (f : Faults) (d : GameDraw) (playerUUID : String) :
    Store × Outcome Response :=
  if playerUUID = "" then
    (db, .returned ⟨StatusBadRequest, .text "query parameter 'player_uuid' cannot be empty!"⟩)
  else
    let current := GetCurrentGame db f d playerUUID
    match current.2 with
    | .panicked message => (current.1, .panicked message)
    | .returned (game, err) =>
      match game.Investigation.Rounds.getLast? with
      | none => (current.1, .panicked "index out of range [-1]")
      | some last =>
        let question := last.Question.English
        match err with
        | some e =>
          (current.1, .returned ⟨StatusInternalServerError,
            .text ("Error getting currentGame for player_uuid " ++ playerUUID ++ ": " ++ e)⟩)
        | none =>
          let service := GetServiceForModel tables f game.Model
          match service.2 with
          | some e =>
            (current.1, .returned ⟨StatusInternalServerError,
              .text ("Error getting service for model " ++ game.Model ++ ": " ++ e)⟩)
          | none =>
            let descriptions := descriptionsFor game.Investigation.CriminalUUID game.Model false
            match descriptions.2 with
            | some e =>
              (current.1, .returned ⟨StatusInternalServerError,
                .text ("Error getting descriptions for suspect: " ++ e)⟩)
            | none =>
              let x := randomForThisInvestigation parse game.Investigation.UUID
                (descriptions.1.length : Int)
              if x < 0 ∨ (descriptions.1.length : Int) ≤ x then
                (current.1, .panicked "index out of range")
              else
                let answer := generate question (descriptions.1.getD x.toNat {}).Description
                  game.Model service.1
                match answer.2 with
                | some e =>
                  (current.1, .returned ⟨StatusTeapot, .text ("Error generating answer: " ++ e)⟩)
                | none =>
                  let saved := SaveAnswer current.1 f answer.1 last.UUID
                  match saved.2 with
                  | some e =>
                    (saved.1, .returned ⟨StatusInternalServerError,
                      .text ("Error saving answer: " ++ e)⟩)
                  | none =>
                    (saved.1, .returned ⟨StatusOK,
                      .answer { UUID := "", Text := answer.1, Timestamp := "" }⟩)

/-! ## Notions used to state the properties -/

/-- The suspects named by the eliminations of all rounds, one entry per
elimination record. -/
def eliminatedSuspects (rounds : List Round) : List String :=
  (rounds.map (fun r => r.Eliminations.map (fun e => e.SuspectUUID))).flatten

/-- The distinct eliminated suspects of the rounds, as the specification counts
them. -/
def distinctEliminated (rounds : List Round) : List String :=
  (eliminatedSuspects rounds).dedup

/-- The number of elimination records the store holds for the rounds of an
investigation. -/
def eliminationRecords (db : Store) (investigationUUID : String) : Nat :=
  ((db.rounds.filter (fun r => r.investigation_uuid = investigationUUID)).map
    (fun r => (db.eliminations.filter (fun e => e.RoundUUID = r.uuid)).length)).sum

/-- The arguments of one call of `SaveElimination`, with what the call draws
from outside. -/
structure EliminationCall where
  faults : Faults := {}
  newUUID : String
  timestamp : String
  suspectUUID : String
  roundUUID : String
  investigationUUID : String
  deriving DecidableEq, Repr

/-- The store after one call of `SaveElimination`. -/
def EliminationCall.run (db : Store) (c : EliminationCall) : Store :=
  (SaveElimination db c.faults c.newUUID c.timestamp c.suspectUUID c.roundUUID
    c.investigationUUID).1

/-- The store after a sequence of calls of `SaveElimination`, first call
first. -/
def saveEliminations (db : Store) (calls : List EliminationCall) : Store :=
  calls.foldl EliminationCall.run db

/-- Every call of the sequence records an elimination in a round of the given
investigation: the insert succeeds, the drawn identifier is not yet in the table
and the round belongs to the investigation. -/
def RecordedIn (investigationUUID : String) : Store → List EliminationCall → Prop
  | _, [] => True
  | db, c :: rest =>
    c.faults.insertElimination = false ∧
      (∀ e ∈ db.eliminations, e.UUID ≠ c.newUUID) ∧
      (∃ r ∈ db.rounds, r.uuid = c.roundUUID ∧ r.investigation_uuid = investigationUUID) ∧
      RecordedIn investigationUUID (c.run db) rest

/-- The results of a call that returned, `none` for a call that panicked. -/
def Outcome.result {α : Type} : Outcome α → Option α
  | .returned value => some value
  | .panicked _ => none

/-- One operation of the engine on the store, with its arguments and what it
draws from outside. -/
inductive Operation where
  | newGame (f : Faults) (d : GameDraw) (playerUUID model : String) : Operation
  | newInvestigation (f : Faults) (d : InvestigationDraw) (gameUUID : String) : Operation
  | newRound (f : Faults) (d : RoundDraw) (investigationUUID : String) : Operation
  | saveElimination (f : Faults) (newUUID timestamp suspectUUID roundUUID
      investigationUUID : String) : Operation
  | saveAnswer (f : Faults) (answer roundUUID : String) : Operation
  | increaseScore (f : Faults) (gameUUID roundUUID : String) : Operation

/-- The store an operation leaves behind. -/
def Operation.run (db : Store) : Operation → Store
  | .newGame f d playerUUID model => (NewGame db f d playerUUID model).1
  | .newInvestigation f d gameUUID => (NewInvestigation db f d gameUUID).1
  | .newRound f d investigationUUID => (NewRound db f d investigationUUID).1
  | .saveElimination f newUUID timestamp suspectUUID roundUUID investigationUUID =>
    (SaveElimination db f newUUID timestamp suspectUUID roundUUID investigationUUID).1
  | .saveAnswer f answer roundUUID => (SaveAnswer db f answer roundUUID).1
  | .increaseScore f gameUUID roundUUID =>
    ArtificialWitness.increaseScore db f gameUUID roundUUID

/-! ## A small store for examples -/

/-- Fifteen suspect identifiers. -/
def exampleSuspectUUIDs : List String :=
  ["s01", "s02", "s03", "s04", "s05", "s06", "s07", "s08", "s09", "s10", "s11", "s12", "s13",
    "s14", "s15"]

/-- A store with fifteen suspects, one question and one game `g1` at level 2:
its first investigation `i0` and its current investigation `i1`, whose criminal
is `s01` and whose only round is `r1`.  The eliminations are the argument. -/
def exampleStore (eliminations : List Elimination) : Store :=
  { suspects := exampleSuspectUUIDs.map (fun u => { uuid := u, image := u, timestamp := "t0" })
    questions := [{ UUID := "q1", English := "Is the suspect smiling?" }]
    games := [{ uuid := "g1", timestamp := "t0", score := .integer 5, investigator := "anonymous",
                player_uuid := "p1", model := "m1" }]
    investigations :=
      [{ uuid := "i0", game_uuid := "g1", timestamp := "t0", sus_uuid := exampleSuspectUUIDs,
         criminal_uuid := "s15" },
       { uuid := "i1", game_uuid := "g1", timestamp := "t1", sus_uuid := exampleSuspectUUIDs,
         criminal_uuid := "s01" }]
    rounds :=
      [{ uuid := "r0", investigation_uuid := "i0", question_uuid := "q1", timestamp := "t0" },
       { uuid := "r1", investigation_uuid := "i1", question_uuid := "q1", timestamp := "t1" }]
    eliminations := eliminations }

/-- The example store with another stored score for its game `g1`. -/
def exampleStoreWithScore (score : SqlNumber) (eliminations : List Elimination) : Store :=
  { exampleStore eliminations with
    games := [{ uuid := "g1", timestamp := "t0", score := score, investigator := "anonymous",
                player_uuid := "p1", model := "m1" }] }

/-- One elimination record of round `r1` per suspect of the list. -/
def exampleEliminations (suspects : List String) : List Elimination :=
  suspects.map (fun u => { UUID := "e" ++ u, RoundUUID := "r1", SuspectUUID := u, Timestamp := "t2" })

/-- The investigation `i1` of the example store as a Go value, with the criminal
`s01` and the innocent `s02` eliminated in its round `r1`. -/
def exampleInvestigation : Investigation :=
  { UUID := "i1", GameUUID := "g1", CriminalUUID := "s01",
    Rounds := [{ UUID := "r1", InvestigationUUID := "i1",
                 Eliminations := exampleEliminations ["s01", "s02"] }] }

/-- One `SaveElimination` call on the round `r1` of the example store per
suspect of the list, on a working store. -/
def exampleCalls (suspects : List String) : List EliminationCall :=
  suspects.map (fun u => ⟨{}, "e" ++ u, "t2", u, "r1", "i1"⟩)

/-- What a call of `NewGame` may draw: the identifiers `g2`, `i2`, `r2`, the
timestamp `t5`, three random values for the rows and 7 for the criminal. -/
def exampleGameDraw : GameDraw :=
  { uuid := "g2", timestamp := "t5",
    investigation :=
      { uuid := "i2", timestamp := "t5", round := { uuid := "r2", timestamp := "t5" },
        suspectKeys := [5, 3, 1], criminal := 7 } }

/-- The investigation `NewInvestigation` returns for the game `g1` in the
example store with the example draw. -/
def exampleCreated : Investigation :=
  (((NewInvestigation (exampleStore []) {} exampleGameDraw.investigation "g1").2.result).map
    Prod.fst).getD {}

/-- The example store with the first `n` suspects of its catalogue only. -/
def exampleStoreWithSuspects (n : Nat) : Store :=
  { exampleStore [] with suspects := (exampleStore []).suspects.take n }

/-- The tables of a service `svc` that serves the model `m1` of the example
store. -/
def exampleServiceStore : ServiceStore :=
  { models := [{ Name := "m1", Service := "svc", Allowed := true }],
    services := [{ Name := "svc", Type_ := "API", Active := true }] }

/-- A parser of identifiers for the examples: every text is read as the bytes
`0x00` .. `0x0f`. -/
def exampleParse : String → Option UUID :=
  fun _ => some ⟨[0, 1, 2, 3, 4, 5, 6, 7, 8, 9, 10, 11, 12, 13, 14, 15], rfl⟩

/-- A text generator for the examples: it answers `YES`. -/
def exampleGenerate : String → String → String → Service → String × Option String :=
  fun _ _ _ _ => ("YES", none)

/-! ## Theorems -/

/-- A 64-bit unsigned value is unchanged by `toGoInt` when it is below `2^63`. -/
theorem toGoInt_of_lt (x : Nat) (h : x < 2 ^ 63) : toGoInt x = (x : Int) := by
  have h1 : x % 2 ^ 64 = x := Nat.mod_eq_of_lt (by omega)
  unfold toGoInt
  rw [h1, if_pos h]

/-- A positive `int` is unchanged by `toUint64`. -/
theorem toUint64_of_pos (c : Int) (h0 : 0 < c) (h1 : c < 2 ^ 63) :
    ((toUint64 c : Nat) : Int) = c := by
  unfold toUint64
  have : c % 2 ^ 64 = c := Int.emod_eq_of_lt (by omega) (by omega)
  rw [this]
  exact Int.toNat_of_nonneg (by omega)

/-- Or-ing a value below `2^i` under a value shifted by `i` adds them. -/
theorem lor_shift_eq_add (acc b i : Nat) (h : acc < 2 ^ i) :
    acc ||| b <<< i = b * 2 ^ i + acc := by
  rw [Nat.lor_comm, Nat.shiftLeft_eq, Nat.mul_comm b, ← Nat.mul_add_lt_is_or h]

/-- On eight bytes the shift-and-or of `bigEndianUint64` is the positional
big-endian value. -/
theorem bigEndianUint64_eight (b0 b1 b2 b3 b4 b5 b6 b7 : Fin 256) :
    bigEndianUint64 [b0, b1, b2, b3, b4, b5, b6, b7] =
      bigEndianValue [b0, b1, b2, b3, b4, b5, b6, b7] := by
  have h0 := b0.isLt
  have h1 := b1.isLt
  have h2 := b2.isLt
  have h3 := b3.isLt
  have h4 := b4.isLt
  have h5 := b5.isLt
  have h6 := b6.isLt
  have h7 := b7.isLt
  simp only [bigEndianUint64, bigEndianValue, byteAt, List.getD_cons_succ, List.getD_cons_zero,
    List.foldl_cons, List.foldl_nil]
  rw [lor_shift_eq_add _ _ 8 (by omega)]
  rw [lor_shift_eq_add _ _ 16 (by omega)]
  rw [lor_shift_eq_add _ _ 24 (by omega)]
  rw [lor_shift_eq_add _ _ 32 (by omega)]
  rw [lor_shift_eq_add _ _ 40 (by omega)]
  rw [lor_shift_eq_add _ _ 48 (by omega)]
  rw [lor_shift_eq_add _ _ 56 (by omega)]
  omega

/-- The first eight bytes of a parsed identifier, read by `bigEndianUint64`, give
the positional big-endian value. -/
theorem bigEndianUint64_take (id : UUID) :
    bigEndianUint64 (id.bytes.take 8) = bigEndianValue (id.bytes.take 8) := by
  obtain ⟨l, hl⟩ := id
  rcases l with _ | ⟨b0, _ | ⟨b1, _ | ⟨b2, _ | ⟨b3, _ | ⟨b4, _ | ⟨b5, _ | ⟨b6, _ | ⟨b7, t⟩⟩⟩⟩⟩⟩⟩⟩ <;>
    simp at hl
  simpa using bigEndianUint64_eight b0 b1 b2 b3 b4 b5 b6 b7

/-- With a positive number of choices the result on a parsed identifier is the
remainder of the 64-bit value by the number of choices. -/
theorem randomForThisInvestigation_parsed (parse : String → Option UUID) (uuid : String)
    (id : UUID) (choices : Int) (hp : parse uuid = some id) (h0 : 0 < choices)
    (h1 : choices < 2 ^ 63) :
    randomForThisInvestigation parse uuid choices =
      ((bigEndianUint64 (id.bytes.take 8) : Nat) : Int) % choices := by
  have hc := toUint64_of_pos choices h0 h1
  have hpos : 0 < toUint64 choices := by omega
  have hlt : bigEndianUint64 (id.bytes.take 8) % toUint64 choices < 2 ^ 63 := by
    have := Nat.mod_lt (bigEndianUint64 (id.bytes.take 8)) hpos
    omega
  unfold randomForThisInvestigation
  rw [if_neg (by omega), hp]
  simp only
  rw [toGoInt_of_lt _ hlt, Int.natCast_mod, hc]

/-- C1: for every identifier text and every positive number of choices (an `int`,
so below `2^63`), `randomForThisInvestigation` returns an index `i` with
`0 ≤ i < choices`, whether or not the text parses as a UUID. -/
theorem randomForThisInvestigation_in_range (parse : String → Option UUID) (uuid : String)
    (choices : Int) (h0 : 0 < choices) (h1 : choices < 2 ^ 63) :
    0 ≤ randomForThisInvestigation parse uuid choices ∧
      randomForThisInvestigation parse uuid choices < choices := by
  cases hp : parse uuid with
  | none =>
    unfold randomForThisInvestigation
    rw [if_neg (by omega), hp]
    exact ⟨le_refl 0, h0⟩
  | some id =>
    rw [randomForThisInvestigation_parsed parse uuid id choices hp h0 h1]
    exact ⟨Int.emod_nonneg _ (by omega), Int.emod_lt_of_pos _ h0⟩

/-- Witness of C1: sixteen bytes `0x00 .. 0x0f` and three choices. -/
theorem randomForThisInvestigation_in_range_witness :
    0 ≤ randomForThisInvestigation
        (fun _ => some ⟨[0, 1, 2, 3, 4, 5, 6, 7, 8, 9, 10, 11, 12, 13, 14, 15], rfl⟩)
        "00010203-0405-0607-0809-0a0b0c0d0e0f" 3 ∧
      randomForThisInvestigation
        (fun _ => some ⟨[0, 1, 2, 3, 4, 5, 6, 7, 8, 9, 10, 11, 12, 13, 14, 15], rfl⟩)
        "00010203-0405-0607-0809-0a0b0c0d0e0f" 3 < 3 :=
  randomForThisInvestigation_in_range _ _ 3 (by decide) (by decide)

/-- C2: `randomForThisInvestigation` is a function of its arguments whose value,
for an identifier that parses and a positive number of choices, is the unsigned
64-bit big-endian integer written by the first 8 bytes of the parsed identifier,
reduced modulo `choices`. -/
theorem randomForThisInvestigation_eq_bigEndian_mod (parse : String → Option UUID)
    (uuid : String) (id : UUID) (choices : Int) (hp : parse uuid = some id)
    (h0 : 0 < choices) (h1 : choices < 2 ^ 63) :
    bigEndianValue (id.bytes.take 8) < 2 ^ 64 ∧
      randomForThisInvestigation parse uuid choices =
        ((bigEndianValue (id.bytes.take 8) : Nat) : Int) % choices := by
  refine ⟨?_, ?_⟩
  · rw [← bigEndianUint64_take]
    obtain ⟨l, hl⟩ := id
    rcases l with _ | ⟨b0, _ | ⟨b1, _ | ⟨b2, _ | ⟨b3, _ | ⟨b4, _ | ⟨b5, _ | ⟨b6, _ | ⟨b7, t⟩⟩⟩⟩⟩⟩⟩⟩ <;>
      simp at hl
    have h := bigEndianUint64_eight b0 b1 b2 b3 b4 b5 b6 b7
    have e0 := b0.isLt
    have e1 := b1.isLt
    have e2 := b2.isLt
    have e3 := b3.isLt
    have e4 := b4.isLt
    have e5 := b5.isLt
    have e6 := b6.isLt
    have e7 := b7.isLt
    simp only [List.take_succ_cons, List.take_zero]
    rw [h]
    simp only [bigEndianValue, List.foldl_cons, List.foldl_nil]
    omega
  · rw [randomForThisInvestigation_parsed parse uuid id choices hp h0 h1, bigEndianUint64_take]

/-- Witness of C2: the bytes `0x00 .. 0x0f` read as `0x0001020304050607`, whose
remainder by 10 is 3. -/
theorem randomForThisInvestigation_eq_bigEndian_mod_witness :
    bigEndianValue
        ((⟨[0, 1, 2, 3, 4, 5, 6, 7, 8, 9, 10, 11, 12, 13, 14, 15], rfl⟩ : UUID).bytes.take 8) <
        2 ^ 64 ∧
      randomForThisInvestigation
          (fun _ => some ⟨[0, 1, 2, 3, 4, 5, 6, 7, 8, 9, 10, 11, 12, 13, 14, 15], rfl⟩)
          "00010203-0405-0607-0809-0a0b0c0d0e0f" 10 =
        ((bigEndianValue
          ((⟨[0, 1, 2, 3, 4, 5, 6, 7, 8, 9, 10, 11, 12, 13, 14, 15], rfl⟩ : UUID).bytes.take 8) :
            Nat) : Int) % 10 :=
  randomForThisInvestigation_eq_bigEndian_mod _ _ _ 10 rfl (by decide) (by decide)

/-- C3: for every identifier text and every `choices ≤ 0`,
`randomForThisInvestigation` returns 0. -/
theorem randomForThisInvestigation_nonpositive (parse : String → Option UUID) (uuid : String)
    (choices : Int) (h : choices ≤ 0) : randomForThisInvestigation parse uuid choices = 0 := by
  unfold randomForThisInvestigation
  rw [if_pos h]

/-- Witness of C3: no choices at all. -/
theorem randomForThisInvestigation_nonpositive_witness :
    randomForThisInvestigation (fun _ => none) "not-a-uuid" 0 = 0 :=
  randomForThisInvestigation_nonpositive _ _ 0 (by decide)

/-- The inner loop of `isGameOver` answers whether some elimination names the
criminal. -/
theorem isGameOver_scanEliminations_iff (criminalUUID : String) (es : List Elimination) :
    isGameOver.scanEliminations criminalUUID es = true ↔
      ∃ e ∈ es, e.SuspectUUID = criminalUUID := by
  induction es with
  | nil => simp [isGameOver.scanEliminations]
  | cons e rest ih =>
    unfold isGameOver.scanEliminations
    by_cases h : e.SuspectUUID = criminalUUID
    · simp [h]
    · simp [h, ih]

/-- The outer loop of `isGameOver` answers whether some round holds an
elimination of the criminal. -/
theorem isGameOver_scanRounds_iff (criminalUUID : String) (rs : List Round) :
    isGameOver.scanRounds criminalUUID rs = true ↔
      ∃ round ∈ rs, ∃ e ∈ round.Eliminations, e.SuspectUUID = criminalUUID := by
  induction rs with
  | nil => simp [isGameOver.scanRounds]
  | cons r rest ih =>
    unfold isGameOver.scanRounds
    by_cases h : isGameOver.scanEliminations criminalUUID r.Eliminations = true
    · have h2 := (isGameOver_scanEliminations_iff criminalUUID r.Eliminations).1 h
      simp [h, h2]
    · have h2 := mt (isGameOver_scanEliminations_iff criminalUUID r.Eliminations).2 h
      simp [h, h2, ih]

/-- C4: for every game, `isGameOver game` is true if and only if some elimination
in some round of `game.Investigation` has `SuspectUUID` equal to
`game.Investigation.CriminalUUID`. -/
theorem isGameOver_iff (game : Game) :
    isGameOver game = true ↔
      ∃ round ∈ game.Investigation.Rounds, ∃ e ∈ round.Eliminations,
        e.SuspectUUID = game.Investigation.CriminalUUID :=
  isGameOver_scanRounds_iff _ _

/-! ### Suspect status -/

/-- Membership in the key set after the inner loop over the eliminations of one
round. -/
theorem mem_foldl_insert_eliminations (u : String) (es : List Elimination) (m : List String) :
    u ∈ es.foldl (fun m e => m.insert e.SuspectUUID) m ↔
      u ∈ m ∨ ∃ e ∈ es, e.SuspectUUID = u := by
  induction es generalizing m with
  | nil => simp
  | cons e rest ih =>
    rw [List.foldl_cons, ih, List.mem_insert_iff]
    constructor
    · rintro ((h | h) | ⟨x, hx, hxe⟩)
      · exact Or.inr ⟨e, List.mem_cons_self _ _, h.symm⟩
      · exact Or.inl h
      · exact Or.inr ⟨x, List.mem_cons_of_mem _ hx, hxe⟩
    · rintro (h | ⟨x, hx, hxe⟩)
      · exact Or.inl (Or.inr h)
      · rcases List.mem_cons.1 hx with rfl | hx
        · exact Or.inl (Or.inl hxe.symm)
        · exact Or.inr ⟨x, hx, hxe⟩

/-- Membership in the key set after the loop over the rounds. -/
theorem mem_foldl_rounds (u : String) (rs : List Round) (m : List String) :
    u ∈ rs.foldl (fun m round => round.Eliminations.foldl (fun m e => m.insert e.SuspectUUID) m) m ↔
      u ∈ m ∨ ∃ round ∈ rs, ∃ e ∈ round.Eliminations, e.SuspectUUID = u := by
  induction rs generalizing m with
  | nil => simp
  | cons r rest ih =>
    rw [List.foldl_cons, ih, mem_foldl_insert_eliminations]
    constructor
    · rintro ((h | ⟨e, he, hu⟩) | ⟨x, hx, hxe⟩)
      · exact Or.inl h
      · exact Or.inr ⟨r, List.mem_cons_self _ _, e, he, hu⟩
      · exact Or.inr ⟨x, List.mem_cons_of_mem _ hx, hxe⟩
    · rintro (h | ⟨x, hx, hxe⟩)
      · exact Or.inl (Or.inl h)
      · rcases List.mem_cons.1 hx with rfl | hx
        · exact Or.inl (Or.inr hxe)
        · exact Or.inr ⟨x, hx, hxe⟩

/-- The map `eliminatedSuspectUUIDs` holds exactly the suspects named by an
elimination of some round. -/
theorem mem_eliminatedSuspectUUIDs (u : String) (rs : List Round) :
    u ∈ eliminatedSuspectUUIDs rs ↔
      ∃ round ∈ rs, ∃ e ∈ round.Eliminations, e.SuspectUUID = u := by
  unfold eliminatedSuspectUUIDs
  rw [mem_foldl_rounds]
  simp

/-- The suspect `GetSuspect` returns is neither free nor fled. -/
theorem GetSuspect_flags (db : Store) (f : Faults) (u : String) :
    (GetSuspect db f u).1.Free = false ∧ (GetSuspect db f u).1.Fled = false := by
  unfold GetSuspect
  split
  · exact ⟨rfl, rfl⟩
  · split <;> exact ⟨rfl, rfl⟩

/-- A successful `GetSuspect` returns the suspect with the identifier asked
for. -/
theorem GetSuspect_found (db : Store) (f : Faults) (u : String)
    (h : (GetSuspect db f u).2 = none) : (GetSuspect db f u).1.UUID = u := by
  unfold GetSuspect at h ⊢
  split
  · rename_i hf
    rw [if_pos hf] at h
    simp at h
  · rename_i hf
    rw [if_neg hf] at h
    cases hfind : db.suspects.find? (fun r => r.uuid = u) with
    | none => simp [hfind] at h
    | some r => simpa using List.find?_some hfind

/-- The loop of `getSuspectsInInvestigation` adds, in the order of the pool, the
suspect loaded for each identifier after marking. -/
theorem getSuspectsInInvestigation_loop_suspects (db : Store) (f : Faults) (el : List String)
    (c : String) (uuids : List String) (acc : List Suspect) (err : Option String) :
    (getSuspectsInInvestigation.loop db f el c uuids acc err).1 =
      acc ++ uuids.map (fun u => markSuspect el c (GetSuspect db f u).1) := by
  induction uuids generalizing acc err with
  | nil => simp [getSuspectsInInvestigation.loop]
  | cons u rest ih =>
    unfold getSuspectsInInvestigation.loop
    rw [ih]
    simp

/-- The function `getSuspectsInInvestigation` returns one suspect per identifier
of the pool, in the order of the pool.  For every identifier of the pool whose
lookup by `GetSuspect` succeeds, the suspect returned at its position carries
that identifier, and: if the suspect has at least one elimination in any round,
then `Fled` is true and `Free` is false when it is the criminal, and `Free` is
true and `Fled` is false when it is not; if it has no elimination, both are
false.  In particular a criminal whose lookup succeeds is not reported `Free`. -/
theorem getSuspectsInInvestigation_found_status (db : Store) (f : Faults)
    (suspectUUIDs : List String) (investigation : Investigation) (k : Nat) (u : String)
    (hk : suspectUUIDs[k]? = some u) (hfound : (GetSuspect db f u).2 = none) :
    (getSuspectsInInvestigation db f suspectUUIDs investigation).1.length = suspectUUIDs.length ∧
      ∃ s, (getSuspectsInInvestigation db f suspectUUIDs investigation).1[k]? = some s ∧
        s.UUID = u ∧
        ((∃ round ∈ investigation.Rounds, ∃ e ∈ round.Eliminations, e.SuspectUUID = u) →
            (u = investigation.CriminalUUID → s.Fled = true ∧ s.Free = false) ∧
            (u ≠ investigation.CriminalUUID → s.Free = true ∧ s.Fled = false)) ∧
        ((¬ ∃ round ∈ investigation.Rounds, ∃ e ∈ round.Eliminations, e.SuspectUUID = u) →
            s.Free = false ∧ s.Fled = false) ∧
        (u = investigation.CriminalUUID → s.Free = false) := by
  have hlist := getSuspectsInInvestigation_loop_suspects db f
    (eliminatedSuspectUUIDs investigation.Rounds) investigation.CriminalUUID suspectUUIDs [] none
  rw [List.nil_append] at hlist
  unfold getSuspectsInInvestigation
  rw [hlist]
  refine ⟨List.length_map _ _, ?_⟩
  refine ⟨markSuspect (eliminatedSuspectUUIDs investigation.Rounds) investigation.CriminalUUID
    (GetSuspect db f u).1, by rw [List.getElem?_map, hk]; rfl, ?_⟩
  obtain ⟨hfree, hfled⟩ := GetSuspect_flags db f u
  have huuid := GetSuspect_found db f u hfound
  rw [← mem_eliminatedSuspectUUIDs]
  generalize (GetSuspect db f u).1 = s0 at hfree hfled huuid
  generalize eliminatedSuspectUUIDs investigation.Rounds = el
  obtain ⟨id0, image, free, fled, ts⟩ := s0
  simp only at hfree hfled huuid
  subst hfree hfled huuid
  unfold markSuspect
  generalize investigation.CriminalUUID = c
  by_cases hel : id0 ∈ el
  · by_cases hc : id0 = c
    · subst hc
      simp [hel]
    · simp [hel, hc]
  · simp [hel]

/-- In the example investigation the eliminated innocent `s02`, second of the
pool, is returned at the second position, free and not fled. -/
theorem getSuspectsInInvestigation_found_status_witness :
    exampleSuspectUUIDs[1]? = some "s02" ∧
      (GetSuspect (exampleStore []) {} "s02").2 = none ∧
      ∃ s, (getSuspectsInInvestigation (exampleStore []) {} exampleSuspectUUIDs
          exampleInvestigation).1[1]? = some s ∧ s.UUID = "s02" ∧ s.Free = true ∧
        s.Fled = false :=
  have h := getSuspectsInInvestigation_found_status (exampleStore []) {} exampleSuspectUUIDs
    exampleInvestigation 1 "s02" (by decide) (by decide)
  ⟨by decide, by decide,
    h.2.elim (fun s hs =>
      ⟨s, hs.1, hs.2.1,
        (hs.2.2.1
          ⟨{ UUID := "r1", InvestigationUUID := "i1",
             Eliminations := exampleEliminations ["s01", "s02"] }, by decide,
            ⟨"es02", "r1", "s02", "t2"⟩, by decide, rfl⟩).2 (by decide)⟩)⟩

/-! ### The flag `InvestigationOver` -/

/-- The clause `ORDER BY .. ASC` permutes the rows. -/
theorem orderByAsc_perm {α : Type} (key : α → String) (rows : List α) :
    (orderByAsc key rows).Perm rows :=
  List.perm_insertionSort _ rows

/-- The clause `ORDER BY .. DESC` permutes the rows. -/
theorem orderByDesc_perm {α : Type} (key : α → String) (rows : List α) :
    (orderByDesc key rows).Perm rows :=
  List.perm_insertionSort _ rows

/-- A successful `getEliminationsForRound` returns as many eliminations as the
table holds for the round. -/
theorem getEliminationsForRound_length (db : Store) (f : Faults) (roundUUID : String)
    (es : List Elimination) (h : getEliminationsForRound db f roundUUID = (es, none)) :
    es.length = (db.eliminations.filter (fun e => e.RoundUUID = roundUUID)).length := by
  unfold getEliminationsForRound at h
  split at h
  · simp at h
  · have h1 := (Prod.mk.inj h).1
    rw [← h1]
    exact (orderByDesc_perm _ _).length_eq

/-- The numbers of eliminations of the rounds a successful loop of `getRounds`
returns are the numbers the table holds for the rows it read. -/
theorem getRounds_loop_lengths (db : Store) (f : Faults) (rows : List RoundRow)
    (acc res : List Round) (h : getRounds.loop db f rows acc = (res, none)) :
    res.map (fun r => r.Eliminations.length) =
      acc.map (fun r => r.Eliminations.length) ++
        rows.map (fun row => (db.eliminations.filter (fun e => e.RoundUUID = row.uuid)).length) := by
  induction rows generalizing acc with
  | nil =>
    unfold getRounds.loop at h
    simp [← (Prod.mk.inj h).1]
  | cons row rest ih =>
    unfold getRounds.loop at h
    simp only at h
    split at h
    · simp at h
    · split at h
      · simp at h
      · rename_i es hes
        rw [ih _ h]
        have := getEliminationsForRound_length db f row.uuid es hes
        simp [this]

/-- The loop of `getCurrentInvestigation` adds up the numbers of eliminations of
the rounds. -/
theorem countEliminated_eq_sum (rounds : List Round) :
    countEliminated rounds = (((rounds.map (fun r => r.Eliminations.length)).sum : Nat) : Int) := by
  have key : ∀ (rs : List Round) (a : Int),
      rs.foldl (fun eliminated round => eliminated + (round.Eliminations.length : Int)) a =
        a + (((rs.map (fun r => r.Eliminations.length)).sum : Nat) : Int) := by
    intro rs
    induction rs with
    | nil => intro a; simp
    | cons r rest ih =>
      intro a
      rw [List.foldl_cons, ih]
      simp only [List.map_cons, List.sum_cons]
      push_cast
      ring
  unfold countEliminated
  rw [key]
  simp

/-- The number of elimination records of the rounds is the number of suspects
they name. -/
theorem eliminatedSuspects_length (rounds : List Round) :
    (eliminatedSuspects rounds).length = (rounds.map (fun r => r.Eliminations.length)).sum := by
  unfold eliminatedSuspects
  rw [List.length_flatten, List.map_map]
  congr 1
  apply List.map_congr_left
  intro r _
  simp

/-- What a successful `getCurrentInvestigation` returns: the latest
investigation row of the game, its rounds, and the flag computed from the number
of eliminations of these rounds. -/
theorem getCurrentInvestigation_ok (db : Store) (f : Faults) (gameUUID : String)
    (h : (getCurrentInvestigation db f gameUUID).2 = none) :
    ∃ row, (orderByDesc (fun r : InvestigationRow => r.timestamp)
          (db.investigations.filter (fun r => r.game_uuid = gameUUID))).head? = some row ∧
      (getCurrentInvestigation db f gameUUID).1.UUID = row.uuid ∧
      (getCurrentInvestigation db f gameUUID).1.CriminalUUID = row.criminal_uuid ∧
      (getRounds db f row.uuid).2 = none ∧
      (getCurrentInvestigation db f gameUUID).1.Rounds = (getRounds db f row.uuid).1 ∧
      ((getCurrentInvestigation db f gameUUID).1.InvestigationOver = true ↔
        countEliminated (getRounds db f row.uuid).1 = numSuspect - 1) := by
  by_cases hf : f.selectInvestigation = true
  · simp [getCurrentInvestigation, hf] at h
  cases hrow : (orderByDesc (fun r : InvestigationRow => r.timestamp)
      (db.investigations.filter (fun r => r.game_uuid = gameUUID))).head? with
  | none => simp [getCurrentInvestigation, hf, hrow] at h
  | some row =>
    refine ⟨row, rfl, ?_⟩
    cases hr : (getRounds db f row.uuid).2 with
    | some e => simp [getCurrentInvestigation, hf, hrow, hr] at h
    | none =>
      simp only [getCurrentInvestigation, hf, hrow, hr] at h ⊢
      generalize getSuspectsInInvestigation db f (scanSuspectUUIDs row) _ = sres at h ⊢
      obtain ⟨ss, se⟩ := sres
      cases se with
      | some e => simp at h
      | none =>
        by_cases hc : countEliminated (getRounds db f row.uuid).1 = numSuspect - 1
        · simp [hc]
        · simp [hc]

/-- The rounds a successful `getRounds` returns hold together as many
eliminations as the store records for the rounds of the investigation. -/
theorem getRounds_records (db : Store) (f : Faults) (investigationUUID : String)
    (h : (getRounds db f investigationUUID).2 = none) :
    ((getRounds db f investigationUUID).1.map (fun r => r.Eliminations.length)).sum =
      eliminationRecords db investigationUUID := by
  unfold getRounds at h ⊢
  split at h
  · simp at h
  · rename_i hf
    rw [if_neg hf]
    have hl := getRounds_loop_lengths db f _ [] _ (Prod.ext rfl h : getRounds.loop db f
      (orderByAsc (fun r => r.timestamp)
        (db.rounds.filter (fun r => r.investigation_uuid = investigationUUID))) [] = (_, none))
    rw [hl]
    simp only [List.map_nil, List.nil_append]
    unfold eliminationRecords
    exact ((orderByAsc_perm _ _).map _).sum_eq

/-- The flag of a successful `getCurrentInvestigation`, read on the store: it is
set exactly when the store records 14 eliminations for the rounds of the
investigation. -/
theorem getCurrentInvestigation_flag_records (db : Store) (f : Faults) (gameUUID : String)
    (h : (getCurrentInvestigation db f gameUUID).2 = none) :
    (getCurrentInvestigation db f gameUUID).1.InvestigationOver = true ↔
      eliminationRecords db (getCurrentInvestigation db f gameUUID).1.UUID = 14 := by
  obtain ⟨row, _, hu, _, hr, _, hover⟩ := getCurrentInvestigation_ok db f gameUUID h
  rw [hover, hu, countEliminated_eq_sum, getRounds_records db f row.uuid hr]
  unfold numSuspect
  omega

/-- The flag of a successful `getCurrentInvestigation`, read on the returned
rounds: it is set exactly when they hold 14 elimination records. -/
theorem getCurrentInvestigation_flag_count (db : Store) (f : Faults) (gameUUID : String)
    (h : (getCurrentInvestigation db f gameUUID).2 = none) :
    (getCurrentInvestigation db f gameUUID).1.InvestigationOver = true ↔
      (eliminatedSuspects (getCurrentInvestigation db f gameUUID).1.Rounds).length = 14 := by
  obtain ⟨row, _, _, _, _, hrounds, hover⟩ := getCurrentInvestigation_ok db f gameUUID h
  rw [hover, hrounds, countEliminated_eq_sum, eliminatedSuspects_length]
  unfold numSuspect
  omega

/-- C5 (amended): for every investigation that `getCurrentInvestigation` returns
without error and in which no suspect is eliminated more than once,
`InvestigationOver` is true if and only if the number of distinct eliminated
suspects over all its rounds equals 14 (`numSuspect - 1`).  Whether the criminal
is among the eliminated suspects does not enter the flag. -/
theorem getCurrentInvestigation_over_iff (db : Store) (f : Faults) (gameUUID : String)
    (h : (getCurrentInvestigation db f gameUUID).2 = none)
    (hnodup : (eliminatedSuspects (getCurrentInvestigation db f gameUUID).1.Rounds).Nodup) :
    (getCurrentInvestigation db f gameUUID).1.InvestigationOver = true ↔
      (distinctEliminated (getCurrentInvestigation db f gameUUID).1.Rounds).length = 14 := by
  unfold distinctEliminated
  rw [hnodup.dedup]
  exact getCurrentInvestigation_flag_count db f gameUUID h

/-- Counterexample to C5 as stated, in the example store.  With the single
elimination of the criminal `s01`, `getCurrentInvestigation` succeeds and leaves
`InvestigationOver` false although the criminal is among the eliminated
suspects.  With `s02` .. `s14` eliminated and `s02` eliminated once more it
sets `InvestigationOver` although only 13 distinct suspects are eliminated and
the criminal is not among them. -/
theorem getCurrentInvestigation_over_counterexample :
    ((getCurrentInvestigation (exampleStore (exampleEliminations ["s01"])) {} "g1").2 = none ∧
      ¬ ((getCurrentInvestigation (exampleStore (exampleEliminations ["s01"])) {}
            "g1").1.InvestigationOver = true ↔
          ((distinctEliminated (getCurrentInvestigation
              (exampleStore (exampleEliminations ["s01"])) {} "g1").1.Rounds).length = 14 ∨
            (getCurrentInvestigation (exampleStore (exampleEliminations ["s01"])) {}
              "g1").1.CriminalUUID ∈
              distinctEliminated (getCurrentInvestigation
                (exampleStore (exampleEliminations ["s01"])) {} "g1").1.Rounds))) ∧
    ((getCurrentInvestigation
        (exampleStore (exampleEliminations ((exampleSuspectUUIDs.drop 1).take 13) ++
          [⟨"again", "r1", "s02", "t3"⟩])) {} "g1").2 = none ∧
      ¬ ((getCurrentInvestigation
            (exampleStore (exampleEliminations ((exampleSuspectUUIDs.drop 1).take 13) ++
              [⟨"again", "r1", "s02", "t3"⟩])) {} "g1").1.InvestigationOver = true ↔
          ((distinctEliminated (getCurrentInvestigation
              (exampleStore (exampleEliminations ((exampleSuspectUUIDs.drop 1).take 13) ++
                [⟨"again", "r1", "s02", "t3"⟩])) {} "g1").1.Rounds).length = 14 ∨
            (getCurrentInvestigation
              (exampleStore (exampleEliminations ((exampleSuspectUUIDs.drop 1).take 13) ++
                [⟨"again", "r1", "s02", "t3"⟩])) {} "g1").1.CriminalUUID ∈
              distinctEliminated (getCurrentInvestigation
                (exampleStore (exampleEliminations ((exampleSuspectUUIDs.drop 1).take 13) ++
                  [⟨"again", "r1", "s02", "t3"⟩])) {} "g1").1.Rounds))) := by
  decide

/-- Witness of C5: the example store with the fourteen innocent suspects
eliminated once each. -/
theorem getCurrentInvestigation_over_iff_witness :
    (getCurrentInvestigation (exampleStore (exampleEliminations (exampleSuspectUUIDs.drop 1))) {}
        "g1").2 = none ∧
      (eliminatedSuspects (getCurrentInvestigation
        (exampleStore (exampleEliminations (exampleSuspectUUIDs.drop 1))) {} "g1").1.Rounds).Nodup ∧
      ((getCurrentInvestigation (exampleStore (exampleEliminations (exampleSuspectUUIDs.drop 1)))
          {} "g1").1.InvestigationOver = true ↔
        (distinctEliminated (getCurrentInvestigation
          (exampleStore (exampleEliminations (exampleSuspectUUIDs.drop 1))) {}
            "g1").1.Rounds).length = 14) :=
  ⟨by decide, by decide,
    getCurrentInvestigation_over_iff
      (exampleStore (exampleEliminations (exampleSuspectUUIDs.drop 1))) {} "g1"
      (by decide) (by decide)⟩

/-! ### Eliminations recorded later -/

/-- The function `increaseScore` writes the table `games` only. -/
theorem increaseScore_tables (db : Store) (f : Faults) (gameUUID roundUUID : String) :
    (increaseScore db f gameUUID roundUUID).suspects = db.suspects ∧
      (increaseScore db f gameUUID roundUUID).questions = db.questions ∧
      (increaseScore db f gameUUID roundUUID).investigations = db.investigations ∧
      (increaseScore db f gameUUID roundUUID).rounds = db.rounds ∧
      (increaseScore db f gameUUID roundUUID).eliminations = db.eliminations := by
  unfold increaseScore
  split
  · simp
  · split
    · simp
    · simp only
      split <;> simp

/-- The function `SaveElimination` leaves the tables `suspects`, `questions`,
`investigations` and `rounds` as they are. -/
theorem SaveElimination_tables (db : Store) (f : Faults)
    (newUUID timestamp suspectUUID roundUUID investigationUUID : String) :
    (SaveElimination db f newUUID timestamp suspectUUID roundUUID investigationUUID).1.suspects =
        db.suspects ∧
      (SaveElimination db f newUUID timestamp suspectUUID roundUUID
        investigationUUID).1.questions = db.questions ∧
      (SaveElimination db f newUUID timestamp suspectUUID roundUUID
        investigationUUID).1.investigations = db.investigations ∧
      (SaveElimination db f newUUID timestamp suspectUUID roundUUID
        investigationUUID).1.rounds = db.rounds := by
  unfold SaveElimination
  by_cases hf : f.insertElimination = true
  · simp [hf]
  · rw [if_neg hf]
    simp only
    split
    · obtain ⟨h1, h2, h3, h4, _⟩ := increaseScore_tables _ f _ roundUUID
      exact ⟨h1, h2, h3, h4⟩
    · simp

/-- When the insert succeeds and the drawn identifier is new, `SaveElimination`
appends the elimination to the table. -/
theorem SaveElimination_eliminations (db : Store) (f : Faults)
    (newUUID timestamp suspectUUID roundUUID investigationUUID : String)
    (hf : f.insertElimination = false) (hnew : ∀ e ∈ db.eliminations, e.UUID ≠ newUUID) :
    (SaveElimination db f newUUID timestamp suspectUUID roundUUID
        investigationUUID).1.eliminations =
      db.eliminations ++
        [{ UUID := newUUID, RoundUUID := roundUUID, SuspectUUID := suspectUUID,
           Timestamp := timestamp }] := by
  have hfilter : ∀ e : Elimination, e.UUID = newUUID →
      insertOrReplaceElimination e db.eliminations = db.eliminations ++ [e] := by
    intro e he
    unfold insertOrReplaceElimination
    congr 1
    rw [List.filter_eq_self]
    intro x hx
    simpa [he] using hnew x hx
  unfold SaveElimination
  rw [if_neg (by simp [hf])]
  simp only
  split
  · rw [(increaseScore_tables _ f _ roundUUID).2.2.2.2]
    exact hfilter _ rfl
  · exact hfilter _ rfl

/-- Appending one elimination raises the number of records of a list of rounds
by the number of those rounds it belongs to. -/
theorem records_append (rows : List RoundRow) (es : List Elimination) (e : Elimination) :
    (rows.map (fun r => ((es ++ [e]).filter (fun x => x.RoundUUID = r.uuid)).length)).sum =
      (rows.map (fun r => (es.filter (fun x => x.RoundUUID = r.uuid)).length)).sum +
        rows.countP (fun r => e.RoundUUID = r.uuid) := by
  induction rows with
  | nil => simp
  | cons x rest ih =>
    have hx : ((es ++ [e]).filter (fun y => y.RoundUUID = x.uuid)).length =
        (es.filter (fun y => y.RoundUUID = x.uuid)).length +
          (if e.RoundUUID = x.uuid then 1 else 0) := by
      by_cases h : e.RoundUUID = x.uuid <;> simp [List.filter_append, List.filter, h]
    rw [List.map_cons, List.sum_cons, ih, hx, List.map_cons, List.sum_cons, List.countP_cons]
    by_cases h : e.RoundUUID = x.uuid
    · simp only [h, if_true, decide_True]
      omega
    · simp only [h, if_false, decide_False]
      simp
      omega

/-- One more elimination of a round of the investigation raises the number of
records of the investigation. -/
theorem eliminationRecords_append (db db' : Store) (investigationUUID : String) (e : Elimination)
    (hr : db'.rounds = db.rounds) (he : db'.eliminations = db.eliminations ++ [e])
    (hround : ∃ r ∈ db.rounds, r.uuid = e.RoundUUID ∧ r.investigation_uuid = investigationUUID) :
    eliminationRecords db investigationUUID + 1 ≤ eliminationRecords db' investigationUUID := by
  unfold eliminationRecords
  rw [hr, he, records_append]
  obtain ⟨r, hrmem, hru, hri⟩ := hround
  have hpos : 0 < (db.rounds.filter (fun r => r.investigation_uuid = investigationUUID)).countP
      (fun r => e.RoundUUID = r.uuid) := by
    rw [List.countP_pos_iff]
    exact ⟨r, by simp [List.mem_filter, hrmem, hri], by simp [hru]⟩
  omega

/-- The function `getQuestion` reads the table `questions` only. -/
theorem getQuestion_congr (db db' : Store) (f : Faults) (u : String)
    (hq : db'.questions = db.questions) : getQuestion db' f u = getQuestion db f u := by
  unfold getQuestion
  rw [hq]

/-- The function `GetSuspect` reads the table `suspects` only. -/
theorem GetSuspect_congr (db db' : Store) (f : Faults) (u : String)
    (hs : db'.suspects = db.suspects) : GetSuspect db' f u = GetSuspect db f u := by
  unfold GetSuspect
  rw [hs]

/-- Whether the loop of `getRounds` fails does not depend on the eliminations
stored. -/
theorem getRounds_loop_err_congr (db db' : Store) (f : Faults)
    (hq : db'.questions = db.questions) (rows : List RoundRow) (acc acc' : List Round) :
    (getRounds.loop db' f rows acc').2 = (getRounds.loop db f rows acc).2 := by
  induction rows generalizing acc acc' with
  | nil => simp [getRounds.loop]
  | cons row rest ih =>
    unfold getRounds.loop
    simp only
    rw [getQuestion_congr db db' f _ hq]
    rcases hquestion : getQuestion db f row.question_uuid with ⟨q, _ | e⟩
    · by_cases hfe : f.selectEliminations = true
      · simp [getEliminationsForRound, hfe]
      · simp only [getEliminationsForRound, hfe]
        exact ih _ _
    · simp

/-- Whether `getRounds` fails does not depend on the eliminations stored. -/
theorem getRounds_err_congr (db db' : Store) (f : Faults) (u : String)
    (hr : db'.rounds = db.rounds) (hq : db'.questions = db.questions) :
    (getRounds db' f u).2 = (getRounds db f u).2 := by
  unfold getRounds
  rw [hr]
  split
  · rfl
  · exact getRounds_loop_err_congr db db' f hq _ _ _

/-- Whether the loop of `getSuspectsInInvestigation` fails depends on the
suspect lookups only. -/
theorem getSuspectsInInvestigation_loop_err_congr (db db' : Store) (f : Faults)
    (hs : db'.suspects = db.suspects) (el el' : List String) (c c' : String)
    (uuids : List String) (acc acc' : List Suspect) (err : Option String) :
    (getSuspectsInInvestigation.loop db' f el' c' uuids acc' err).2 =
      (getSuspectsInInvestigation.loop db f el c uuids acc err).2 := by
  induction uuids generalizing acc acc' err with
  | nil => simp [getSuspectsInInvestigation.loop]
  | cons u rest ih =>
    unfold getSuspectsInInvestigation.loop
    simp only
    rw [GetSuspect_congr db db' f u hs]
    exact ih _ _ _

/-- Whether `getCurrentInvestigation` fails does not depend on the eliminations
and scores stored. -/
theorem getCurrentInvestigation_err_congr (db db' : Store) (f : Faults) (gameUUID : String)
    (hi : db'.investigations = db.investigations) (hr : db'.rounds = db.rounds)
    (hq : db'.questions = db.questions) (hs : db'.suspects = db.suspects) :
    (getCurrentInvestigation db' f gameUUID).2 = (getCurrentInvestigation db f gameUUID).2 := by
  by_cases hf : f.selectInvestigation = true
  · simp [getCurrentInvestigation, hf]
  cases hrow : (orderByDesc (fun r : InvestigationRow => r.timestamp)
      (db.investigations.filter (fun r => r.game_uuid = gameUUID))).head? with
  | none => simp [getCurrentInvestigation, hf, hi, hrow]
  | some row =>
    have hR := getRounds_err_congr db db' f row.uuid hr hq
    cases hr2 : (getRounds db f row.uuid).2 with
    | some e =>
      rw [hr2] at hR
      simp [getCurrentInvestigation, hf, hi, hrow, hr2, hR]
    | none =>
      rw [hr2] at hR
      simp only [getCurrentInvestigation, hf, hi, hrow, hr2, hR]
      have hS := getSuspectsInInvestigation_loop_err_congr db db' f hs
        (eliminatedSuspectUUIDs (getRounds db f row.uuid).1)
        (eliminatedSuspectUUIDs (getRounds db' f row.uuid).1) row.criminal_uuid row.criminal_uuid
        (scanSuspectUUIDs row) [] [] none
      unfold getSuspectsInInvestigation
      simp only
      rw [hS]
      cases (getSuspectsInInvestigation.loop db f (eliminatedSuspectUUIDs (getRounds db f row.uuid).1)
        row.criminal_uuid (scanSuspectUUIDs row) [] none).2 with
      | some e => simp
      | none =>
        have e1 : ∀ (c : Prop) [Decidable c] (a b : Investigation),
            (if c then (a, (none : Option String)) else (b, none)).2 = none := by
          intro c _ a b
          split <;> rfl
        simp [e1]

/-- A sequence of `SaveElimination` calls leaves the tables `suspects`,
`questions`, `investigations` and `rounds` as they are. -/
theorem saveEliminations_tables (db : Store) (calls : List EliminationCall) :
    (saveEliminations db calls).suspects = db.suspects ∧
      (saveEliminations db calls).questions = db.questions ∧
      (saveEliminations db calls).investigations = db.investigations ∧
      (saveEliminations db calls).rounds = db.rounds := by
  induction calls generalizing db with
  | nil => exact ⟨rfl, rfl, rfl, rfl⟩
  | cons c rest ih =>
    obtain ⟨h1, h2, h3, h4⟩ := ih (c.run db)
    obtain ⟨k1, k2, k3, k4⟩ := SaveElimination_tables db c.faults c.newUUID c.timestamp
      c.suspectUUID c.roundUUID c.investigationUUID
    unfold saveEliminations at h1 h2 h3 h4 ⊢
    rw [List.foldl_cons]
    exact ⟨h1.trans k1, h2.trans k2, h3.trans k3, h4.trans k4⟩

/-- Every call that records an elimination in a round of the investigation
raises the number of its elimination records. -/
theorem saveEliminations_records (investigationUUID : String) (db : Store)
    (calls : List EliminationCall) (hrec : RecordedIn investigationUUID db calls) :
    eliminationRecords db investigationUUID + calls.length ≤
      eliminationRecords (saveEliminations db calls) investigationUUID := by
  induction calls generalizing db with
  | nil => simp [saveEliminations]
  | cons c rest ih =>
    obtain ⟨hf, hnew, hround, hrest⟩ := hrec
    have hstep := eliminationRecords_append db (c.run db) investigationUUID
      { UUID := c.newUUID, RoundUUID := c.roundUUID, SuspectUUID := c.suspectUUID,
        Timestamp := c.timestamp }
      (SaveElimination_tables db c.faults c.newUUID c.timestamp c.suspectUUID c.roundUUID
        c.investigationUUID).2.2.2
      (SaveElimination_eliminations db c.faults c.newUUID c.timestamp c.suspectUUID c.roundUUID
        c.investigationUUID hf hnew)
      hround
    have hind := ih (c.run db) hrest
    unfold saveEliminations at hind ⊢
    rw [List.foldl_cons, List.length_cons]
    omega

/-- C6 (amended): `InvestigationOver` is true only while exactly 14 eliminations
are recorded for the investigation, and it is not kept.  When
`getCurrentInvestigation` reports the flag true, then after every non-empty
sequence of later `SaveElimination` calls that record eliminations in rounds of
this investigation it returns the same investigation, again without error, with
`InvestigationOver` false: 14 eliminations were recorded for the investigation
when the flag was true, and each of the later calls has added one. -/
theorem getCurrentInvestigation_over_not_kept (db : Store) (f : Faults) (gameUUID : String)
    (calls : List EliminationCall)
    (h : (getCurrentInvestigation db f gameUUID).2 = none)
    (hover : (getCurrentInvestigation db f gameUUID).1.InvestigationOver = true)
    (hne : calls ≠ [])
    (hrec : RecordedIn (getCurrentInvestigation db f gameUUID).1.UUID db calls) :
    (getCurrentInvestigation (saveEliminations db calls) f gameUUID).2 = none ∧
      (getCurrentInvestigation (saveEliminations db calls) f gameUUID).1.UUID =
        (getCurrentInvestigation db f gameUUID).1.UUID ∧
      (getCurrentInvestigation (saveEliminations db calls) f gameUUID).1.InvestigationOver =
        false ∧
      eliminationRecords db (getCurrentInvestigation db f gameUUID).1.UUID = 14 ∧
      14 + calls.length ≤
        eliminationRecords (saveEliminations db calls)
          (getCurrentInvestigation db f gameUUID).1.UUID := by
  obtain ⟨t1, t2, t3, t4⟩ := saveEliminations_tables db calls
  have herr : (getCurrentInvestigation (saveEliminations db calls) f gameUUID).2 = none :=
    (getCurrentInvestigation_err_congr db _ f gameUUID t3 t4 t2 t1).trans h
  have huuid : (getCurrentInvestigation (saveEliminations db calls) f gameUUID).1.UUID =
      (getCurrentInvestigation db f gameUUID).1.UUID := by
    obtain ⟨row, hrow, hu, _⟩ := getCurrentInvestigation_ok db f gameUUID h
    obtain ⟨row', hrow', hu', _⟩ := getCurrentInvestigation_ok _ f gameUUID herr
    rw [t3, hrow] at hrow'
    rw [hu, hu', Option.some.inj hrow']
  have h14 := (getCurrentInvestigation_flag_records db f gameUUID h).1 hover
  have hgrow := saveEliminations_records _ db calls hrec
  have hlen : 0 < calls.length := List.length_pos.2 hne
  refine ⟨herr, huuid, ?_, h14, by omega⟩
  cases hflag : (getCurrentInvestigation (saveEliminations db calls) f gameUUID).1.InvestigationOver
    with
  | false => rfl
  | true =>
    have h14' := (getCurrentInvestigation_flag_records _ f gameUUID herr).1 hflag
    rw [huuid] at h14'
    omega

/-- Counterexample to C6 as stated: with the fourteen innocent suspects of the
example store eliminated the flag is true; one more `SaveElimination`, of the
criminal `s01`, and `getCurrentInvestigation` reports it false. -/
theorem getCurrentInvestigation_over_reverts_counterexample :
    (getCurrentInvestigation (exampleStore (exampleEliminations (exampleSuspectUUIDs.drop 1))) {}
        "g1").1.InvestigationOver = true ∧
      (SaveElimination (exampleStore (exampleEliminations (exampleSuspectUUIDs.drop 1))) {}
        "e15" "t3" "s01" "r1" "i1").2 = none ∧
      (getCurrentInvestigation
        (SaveElimination (exampleStore (exampleEliminations (exampleSuspectUUIDs.drop 1))) {}
          "e15" "t3" "s01" "r1" "i1").1 {} "g1").2 = none ∧
      (getCurrentInvestigation
        (SaveElimination (exampleStore (exampleEliminations (exampleSuspectUUIDs.drop 1))) {}
          "e15" "t3" "s01" "r1" "i1").1 {} "g1").1.InvestigationOver = false := by
  decide

/-- Witness of C6: the fourteen eliminations of the example store followed by
the elimination of the criminal and a repeated elimination of `s02`. -/
theorem getCurrentInvestigation_over_not_kept_witness :
    (getCurrentInvestigation
        (saveEliminations (exampleStore (exampleEliminations (exampleSuspectUUIDs.drop 1)))
          [{ newUUID := "e15", timestamp := "t3", suspectUUID := "s01", roundUUID := "r1",
             investigationUUID := "i1" },
           { newUUID := "e16", timestamp := "t4", suspectUUID := "s02", roundUUID := "r1",
             investigationUUID := "i1" }]) {} "g1").2 = none ∧
      (getCurrentInvestigation
        (saveEliminations (exampleStore (exampleEliminations (exampleSuspectUUIDs.drop 1)))
          [{ newUUID := "e15", timestamp := "t3", suspectUUID := "s01", roundUUID := "r1",
             investigationUUID := "i1" },
           { newUUID := "e16", timestamp := "t4", suspectUUID := "s02", roundUUID := "r1",
             investigationUUID := "i1" }]) {} "g1").1.UUID =
        (getCurrentInvestigation
          (exampleStore (exampleEliminations (exampleSuspectUUIDs.drop 1))) {} "g1").1.UUID ∧
      (getCurrentInvestigation
        (saveEliminations (exampleStore (exampleEliminations (exampleSuspectUUIDs.drop 1)))
          [{ newUUID := "e15", timestamp := "t3", suspectUUID := "s01", roundUUID := "r1",
             investigationUUID := "i1" },
           { newUUID := "e16", timestamp := "t4", suspectUUID := "s02", roundUUID := "r1",
             investigationUUID := "i1" }]) {} "g1").1.InvestigationOver = false :=
  have h := getCurrentInvestigation_over_not_kept
    (exampleStore (exampleEliminations (exampleSuspectUUIDs.drop 1))) {} "g1"
    [{ newUUID := "e15", timestamp := "t3", suspectUUID := "s01", roundUUID := "r1",
       investigationUUID := "i1" },
     { newUUID := "e16", timestamp := "t4", suspectUUID := "s02", roundUUID := "r1",
       investigationUUID := "i1" }] (by decide) (by decide) (by decide)
    ⟨rfl, by decide, by decide, rfl, by decide, by decide, trivial⟩
  ⟨h.1, h.2.1, h.2.2.1⟩

/-! ### Scoring -/

/-- A value of the 64-bit range is unchanged by the reduction of a Go `int`. -/
theorem wrapGoInt_of_range (x : Int) (h0 : -2 ^ 63 ≤ x) (h1 : x < 2 ^ 63) : wrapGoInt x = x := by
  unfold wrapGoInt toUint64 toGoInt
  by_cases hx : 0 ≤ x
  · have hm : x % 2 ^ 64 = x := Int.emod_eq_of_lt hx (by omega)
    rw [hm]
    have hn : (x.toNat : Int) = x := Int.toNat_of_nonneg hx
    have hlt : x.toNat < 2 ^ 63 := by omega
    have hmod : x.toNat % 2 ^ 64 = x.toNat := Nat.mod_eq_of_lt (by omega)
    rw [hmod, if_pos hlt, hn]
  · have hm : x % 2 ^ 64 = x + 2 ^ 64 := by
      rw [← Int.add_mul_emod_self_left x (2 ^ 64) 1, mul_one]
      exact Int.emod_eq_of_lt (by omega) (by omega)
    rw [hm]
    have hn : ((x + 2 ^ 64).toNat : Int) = x + 2 ^ 64 := Int.toNat_of_nonneg (by omega)
    have hge : ¬ (x + 2 ^ 64).toNat < 2 ^ 63 := by omega
    have hmod : (x + 2 ^ 64).toNat % 2 ^ 64 = (x + 2 ^ 64).toNat := Nat.mod_eq_of_lt (by omega)
    rw [hmod, if_neg hge, hn]
    omega

/-- Inside the 64-bit range SQLite adds two `INTEGER` values exactly. -/
theorem sqliteAdd_integer (value amount : Int) (h0 : -2 ^ 63 ≤ value + amount)
    (h1 : value + amount < 2 ^ 63) :
    sqliteAdd (.integer value) amount = .integer (value + amount) := by
  simp only [sqliteAdd]
  rw [if_pos ⟨by omega, by omega⟩]

/-- A sum that SQLite keeps as an `INTEGER` is below `2^63`. -/
theorem sqliteAdd_integer_range (value amount : Int)
    (h : sqliteAdd (.integer value) amount = .integer (value + amount)) :
    value + amount < 2 ^ 63 := by
  by_cases hr : -9223372036854775808 ≤ value + amount ∧ value + amount ≤ 9223372036854775807
  · omega
  · simp [sqliteAdd, hr] at h

/-- After the addition of an amount that is not negative an `INTEGER` score is
the exact sum, or the exact sum is `2^63` or more and the score is a `REAL`. -/
theorem sqliteAdd_cases (value amount : Int) (h0 : -2 ^ 63 ≤ value) (ha : 0 ≤ amount) :
    sqliteAdd (.integer value) amount = .integer (value + amount) ∨
      (2 ^ 63 ≤ value + amount ∧ sqliteAdd (.integer value) amount = .real) := by
  by_cases hr : -9223372036854775808 ≤ value + amount ∧ value + amount ≤ 9223372036854775807
  · exact Or.inl (by simp only [sqliteAdd]; rw [if_pos hr])
  · exact Or.inr ⟨by omega, by simp only [sqliteAdd]; rw [if_neg hr]⟩

/-- The scores read after the `UPDATE` statement: the amount is added for the
updated game and for no other. -/
theorem find_updateScore (amount : Int) (gameUUID other : String) (games : List GameRow) :
    ((updateScore amount gameUUID games).find? (fun g => g.uuid = other)).map (fun g => g.score) =
      ((games.find? (fun g => g.uuid = other)).map (fun g => g.score)).map
        (fun s => if other = gameUUID then sqliteAdd s amount else s) := by
  induction games with
  | nil => rfl
  | cons x rest ih =>
    have hcons : updateScore amount gameUUID (x :: rest) =
        (if x.uuid = gameUUID then { x with score := sqliteAdd x.score amount } else x) ::
          updateScore amount gameUUID rest := rfl
    rw [hcons, List.find?_cons, List.find?_cons]
    by_cases ho : x.uuid = other
    · subst ho
      by_cases hg : x.uuid = gameUUID
      · simp [hg]
      · simp [hg]
    · by_cases hg : x.uuid = gameUUID
      · subst hg
        simp only [if_true, ho, decide_False]
        exact ih
      · simp only [hg, if_false, ho, decide_False]
        exact ih

/-- The score of the updated game after the `UPDATE` statement. -/
theorem storedScore_updateScore_same (db : Store) (amount : Int) (gameUUID : String) :
    storedScore { db with games := updateScore amount gameUUID db.games } gameUUID =
      (storedScore db gameUUID).map (fun s => sqliteAdd s amount) := by
  unfold storedScore
  simp only
  rw [find_updateScore]
  simp

/-- The score of every other game after the `UPDATE` statement. -/
theorem storedScore_updateScore_other (db : Store) (amount : Int) (gameUUID other : String)
    (hne : other ≠ gameUUID) :
    storedScore { db with games := updateScore amount gameUUID db.games } other =
      storedScore db other := by
  unfold storedScore
  simp only
  rw [find_updateScore]
  simp [hne, Function.comp_def]

/-- With a working store `increaseScore` is the `UPDATE` by the level times the
number of eliminations of the round, as a Go `int`. -/
theorem increaseScore_ok (db : Store) (f : Faults) (gameUUID roundUUID : String)
    (hl : f.countInvestigations = false) (he : f.selectEliminations = false)
    (hu : f.updateScore = false) :
    increaseScore db f gameUUID roundUUID =
      { db with
        games :=
          updateScore
            (wrapGoInt
              ((db.investigations.countP (fun r => r.game_uuid = gameUUID) : Int) *
                (db.eliminations.countP (fun e => e.RoundUUID = roundUUID) : Int)))
            gameUUID db.games } := by
  unfold increaseScore GetLevel getEliminationsForRound
  simp only [hl, he, hu, Bool.false_eq_true, if_false]
  rw [(orderByDesc_perm _ _).length_eq, List.countP_eq_length_filter,
    List.countP_eq_length_filter]

/-- The score an `INTEGER` score becomes by `increaseScore` on a working store,
as long as the product and the sum stay in the 64-bit range. -/
theorem increaseScore_integer (db : Store) (f : Faults) (gameUUID roundUUID : String) (s : Int)
    (hl : f.countInvestigations = false) (he : f.selectEliminations = false)
    (hu : f.updateScore = false) (hs : storedScore db gameUUID = some (.integer s))
    (hlow : -2 ^ 63 ≤ s)
    (hamount : (db.investigations.countP (fun r => r.game_uuid = gameUUID) : Int) *
      (db.eliminations.countP (fun e => e.RoundUUID = roundUUID) : Int) < 2 ^ 63)
    (hsum : s + (db.investigations.countP (fun r => r.game_uuid = gameUUID) : Int) *
      (db.eliminations.countP (fun e => e.RoundUUID = roundUUID) : Int) < 2 ^ 63) :
    storedScore (increaseScore db f gameUUID roundUUID) gameUUID =
      some (.integer (s + (db.investigations.countP (fun r => r.game_uuid = gameUUID) : Int) *
        (db.eliminations.countP (fun e => e.RoundUUID = roundUUID) : Int))) := by
  have hpos : (0 : Int) ≤ (db.investigations.countP (fun r => r.game_uuid = gameUUID) : Int) *
      (db.eliminations.countP (fun e => e.RoundUUID = roundUUID) : Int) :=
    mul_nonneg (Int.natCast_nonneg _) (Int.natCast_nonneg _)
  rw [increaseScore_ok db f gameUUID roundUUID hl he hu, storedScore_updateScore_same, hs,
    wrapGoInt_of_range _ (by omega) hamount, Option.map_some',
    sqliteAdd_integer _ _ (by omega) hsum]

/-- C8 (amended): for every game and round, one call of
`increaseScore gameUUID roundUUID` on a working store adds to the stored score of
that game exactly `level × e`, where `level` is the number of investigations
stored for the game and `e` is the number of eliminations stored for that round
alone, as long as the product fits Go's 64-bit `int` and the sum stays below
`2^63`, the range of an `INTEGER`; when the sum is `2^63` or more the stored
score becomes a `REAL`.  The score of every other game is unchanged. -/
theorem increaseScore_adds (db : Store) (f : Faults) (gameUUID roundUUID : String) (s : Int)
    (hl : f.countInvestigations = false) (he : f.selectEliminations = false)
    (hu : f.updateScore = false) (hs : storedScore db gameUUID = some (.integer s))
    (hlow : -2 ^ 63 ≤ s)
    (hamount : (db.investigations.countP (fun r => r.game_uuid = gameUUID) : Int) *
      (db.eliminations.countP (fun e => e.RoundUUID = roundUUID) : Int) < 2 ^ 63) :
    (s + (db.investigations.countP (fun r => r.game_uuid = gameUUID) : Int) *
          (db.eliminations.countP (fun e => e.RoundUUID = roundUUID) : Int) < 2 ^ 63 →
        storedScore (increaseScore db f gameUUID roundUUID) gameUUID =
          some (.integer (s + (db.investigations.countP (fun r => r.game_uuid = gameUUID) : Int) *
            (db.eliminations.countP (fun e => e.RoundUUID = roundUUID) : Int)))) ∧
      (2 ^ 63 ≤ s + (db.investigations.countP (fun r => r.game_uuid = gameUUID) : Int) *
          (db.eliminations.countP (fun e => e.RoundUUID = roundUUID) : Int) →
        storedScore (increaseScore db f gameUUID roundUUID) gameUUID = some .real) ∧
      ∀ other, other ≠ gameUUID →
        storedScore (increaseScore db f gameUUID roundUUID) other = storedScore db other := by
  have hpos : (0 : Int) ≤ (db.investigations.countP (fun r => r.game_uuid = gameUUID) : Int) *
      (db.eliminations.countP (fun e => e.RoundUUID = roundUUID) : Int) :=
    mul_nonneg (Int.natCast_nonneg _) (Int.natCast_nonneg _)
  refine ⟨fun hsum =>
    increaseScore_integer db f gameUUID roundUUID s hl he hu hs hlow hamount hsum, ?_, ?_⟩
  · intro hover
    rw [increaseScore_ok db f gameUUID roundUUID hl he hu, storedScore_updateScore_same, hs,
      wrapGoInt_of_range _ (by omega) hamount, Option.map_some']
    rcases sqliteAdd_cases s _ hlow hpos with h | ⟨_, h⟩
    · have hfit := sqliteAdd_integer_range s _ h
      omega
    · rw [h]
  · intro other hne
    rw [increaseScore_ok db f gameUUID roundUUID hl he hu]
    exact storedScore_updateScore_other db _ gameUUID other hne

/-- Counterexample to C8 as stated: the game `g1` of the example store with the
score `2^63 - 1`, the largest `INTEGER`, at level 2, and the round `r1` with one
elimination.  After `increaseScore` the stored score is a `REAL`, not the
`INTEGER` `2^63 - 1 + 2 × 1`. -/
theorem increaseScore_adds_counterexample :
    storedScore (exampleStoreWithScore (.integer 9223372036854775807)
        (exampleEliminations ["s02"])) "g1" = some (.integer 9223372036854775807) ∧
      GetLevel (exampleStoreWithScore (.integer 9223372036854775807)
        (exampleEliminations ["s02"])) {} "g1" = (2, none) ∧
      (getEliminationsForRound (exampleStoreWithScore (.integer 9223372036854775807)
        (exampleEliminations ["s02"])) {} "r1").1.length = 1 ∧
      storedScore
        (increaseScore (exampleStoreWithScore (.integer 9223372036854775807)
          (exampleEliminations ["s02"])) {} "g1" "r1") "g1" = some .real ∧
      storedScore
        (increaseScore (exampleStoreWithScore (.integer 9223372036854775807)
          (exampleEliminations ["s02"])) {} "g1" "r1") "g1" ≠
        some (.integer (9223372036854775807 + 2 * 1)) := by
  decide

/-- Witness of C8: the game `g1` of the example store, at level 2 with score 5,
and the round `r1` with three eliminations: the score becomes `5 + 2 × 3`. -/
theorem increaseScore_adds_witness :
    storedScore (exampleStore (exampleEliminations ["s02", "s03", "s04"])) "g1" =
        some (.integer 5) ∧
      storedScore
        (increaseScore (exampleStore (exampleEliminations ["s02", "s03", "s04"])) {} "g1" "r1")
        "g1" = some (.integer (5 + 2 * 3)) :=
  ⟨by decide,
    (increaseScore_adds (exampleStore (exampleEliminations ["s02", "s03", "s04"])) {} "g1" "r1" 5
      rfl rfl rfl (by decide) (by decide) (by decide)).1 (by decide)⟩

/-- With a working lookup the scan of `SaveElimination` yields the criminal and
the game of the investigation row. -/
theorem scanCriminal_found (db : Store) (f : Faults) (investigationUUID : String)
    (row : InvestigationRow) (hf : f.selectCriminal = false)
    (hrow : db.investigations.find? (fun r => r.uuid = investigationUUID) = some row) :
    SaveElimination.scanCriminal db f investigationUUID = (row.criminal_uuid, row.game_uuid) := by
  unfold SaveElimination.scanCriminal
  rw [hf, hrow]
  rfl

/-- The function `SaveElimination` after a successful insert. -/
theorem SaveElimination_working (db : Store) (f : Faults)
    (newUUID timestamp suspectUUID roundUUID investigationUUID : String)
    (h1 : f.insertElimination = false) :
    SaveElimination db f newUUID timestamp suspectUUID roundUUID investigationUUID =
      if (SaveElimination.scanCriminal db f investigationUUID).1 ≠ suspectUUID then
        (increaseScore
          { db with
            eliminations :=
              insertOrReplaceElimination ⟨newUUID, roundUUID, suspectUUID, timestamp⟩
                db.eliminations } f
          (SaveElimination.scanCriminal db f investigationUUID).2 roundUUID, none)
      else
        ({ db with
           eliminations :=
             insertOrReplaceElimination ⟨newUUID, roundUUID, suspectUUID, timestamp⟩
               db.eliminations }, none) := by
  unfold SaveElimination
  rw [if_neg (by simp [h1])]
  rfl

/-- One `SaveElimination` of a suspect who is not the criminal, on a working
store: the score of the game grows by the level times the number of eliminations
of the round, the new one included. -/
theorem SaveElimination_innocent (db : Store) (f : Faults)
    (newUUID timestamp suspectUUID roundUUID investigationUUID : String)
    (row : InvestigationRow) (s : Int)
    (h1 : f.insertElimination = false) (h2 : f.selectCriminal = false)
    (h3 : f.countInvestigations = false) (h4 : f.selectEliminations = false)
    (h5 : f.updateScore = false)
    (hnew : ∀ e ∈ db.eliminations, e.UUID ≠ newUUID)
    (hrow : db.investigations.find? (fun r => r.uuid = investigationUUID) = some row)
    (hc : row.criminal_uuid ≠ suspectUUID)
    (hs : storedScore db row.game_uuid = some (.integer s))
    (hlow : -2 ^ 63 ≤ s)
    (hamount : (db.investigations.countP (fun r => r.game_uuid = row.game_uuid) : Int) *
      ((db.eliminations.countP (fun e => e.RoundUUID = roundUUID) : Int) + 1) < 2 ^ 63)
    (hsum : s + (db.investigations.countP (fun r => r.game_uuid = row.game_uuid) : Int) *
      ((db.eliminations.countP (fun e => e.RoundUUID = roundUUID) : Int) + 1) < 2 ^ 63) :
    storedScore (SaveElimination db f newUUID timestamp suspectUUID roundUUID
        investigationUUID).1 row.game_uuid =
      some (.integer (s + (db.investigations.countP (fun r => r.game_uuid = row.game_uuid) : Int) *
        ((db.eliminations.countP (fun e => e.RoundUUID = roundUUID) : Int) + 1))) := by
  have hfilter : insertOrReplaceElimination ⟨newUUID, roundUUID, suspectUUID, timestamp⟩
      db.eliminations = db.eliminations ++ [⟨newUUID, roundUUID, suspectUUID, timestamp⟩] := by
    unfold insertOrReplaceElimination
    congr 1
    rw [List.filter_eq_self]
    intro x hx
    simpa using hnew x hx
  have hcount : ((db.eliminations ++
      [(⟨newUUID, roundUUID, suspectUUID, timestamp⟩ : Elimination)]).countP
      (fun e => e.RoundUUID = roundUUID) : Int) =
      (db.eliminations.countP (fun e => e.RoundUUID = roundUUID) : Int) + 1 := by
    simp [List.countP_append, List.countP_cons]
  rw [SaveElimination_working db f newUUID timestamp suspectUUID roundUUID investigationUUID h1,
    scanCriminal_found db f investigationUUID row h2 hrow]
  simp only [ne_eq, hc, not_false_eq_true, if_true]
  rw [hfilter]
  have key := increaseScore_integer
    { db with eliminations := db.eliminations ++ [⟨newUUID, roundUUID, suspectUUID, timestamp⟩] }
    f row.game_uuid roundUUID s h3 h4 h5 (show storedScore { db with eliminations := _ } _ = _ from hs) hlow
  simp only [hcount] at key
  exact key hamount hsum

/-- The `UPDATE` statement changes nothing when no game has the identifier. -/
theorem updateScore_absent (amount : Int) (gameUUID : String) (games : List GameRow)
    (h : ∀ g ∈ games, g.uuid ≠ gameUUID) : updateScore amount gameUUID games = games := by
  unfold updateScore
  induction games with
  | nil => rfl
  | cons x rest ih =>
    have hx : x.uuid ≠ gameUUID := h x (List.mem_cons_self _ _)
    rw [List.map_cons, if_neg hx, ih (fun g hg => h g (List.mem_cons_of_mem _ hg))]

/-- The function `increaseScore` leaves the games as they are when no game has
the identifier. -/
theorem increaseScore_absent (db : Store) (f : Faults) (gameUUID roundUUID : String)
    (h : ∀ g ∈ db.games, g.uuid ≠ gameUUID) :
    (increaseScore db f gameUUID roundUUID).games = db.games := by
  unfold increaseScore
  split
  · rfl
  · split
    · rfl
    · simp only
      split
      · rfl
      · exact updateScore_absent _ _ _ h

/-- C10: for every investigation, `SaveElimination` called with the
investigation's criminal as `suspectUUID` leaves the table of games, and so the
score of every game, unchanged from before the call.  The lookup of the
investigation works, or no game has the empty identifier. -/
theorem SaveElimination_criminal_score (db : Store) (f : Faults)
    (newUUID timestamp suspectUUID roundUUID investigationUUID : String)
    (row : InvestigationRow)
    (hrow : db.investigations.find? (fun r => r.uuid = investigationUUID) = some row)
    (hc : row.criminal_uuid = suspectUUID)
    (hf : f.selectCriminal = false ∨ ∀ g ∈ db.games, g.uuid ≠ "") :
    (SaveElimination db f newUUID timestamp suspectUUID roundUUID investigationUUID).1.games =
        db.games ∧
      ∀ gameUUID,
        storedScore (SaveElimination db f newUUID timestamp suspectUUID roundUUID
          investigationUUID).1 gameUUID = storedScore db gameUUID := by
  have hgames : (SaveElimination db f newUUID timestamp suspectUUID roundUUID
      investigationUUID).1.games = db.games := by
    by_cases h1 : f.insertElimination = true
    · unfold SaveElimination
      rw [if_pos h1]
    · rw [SaveElimination_working db f newUUID timestamp suspectUUID roundUUID investigationUUID
        (by simpa using h1)]
      by_cases h2 : f.selectCriminal = true
      · have hscan : SaveElimination.scanCriminal db f investigationUUID = ("", "") := by
          unfold SaveElimination.scanCriminal
          rw [if_pos h2]
        rw [hscan]
        split
        · rcases hf with hf | hf
          · rw [h2] at hf
            exact absurd hf (by decide)
          · exact increaseScore_absent _ f "" roundUUID hf
        · rfl
      · rw [scanCriminal_found db f investigationUUID row (by simpa using h2) hrow]
        simp [hc]
  refine ⟨hgames, ?_⟩
  intro gameUUID
  unfold storedScore
  rw [hgames]

/-- Witness of C10: the criminal `s01` of the investigation `i1` of the example
store is eliminated in round `r1`; the score of `g1` stays 5. -/
theorem SaveElimination_criminal_score_witness :
    storedScore (exampleStore []) "g1" = some (.integer 5) ∧
      storedScore (SaveElimination (exampleStore []) {} "e1" "t2" "s01" "r1" "i1").1 "g1" =
        storedScore (exampleStore []) "g1" :=
  ⟨by decide,
    (SaveElimination_criminal_score (exampleStore []) {} "e1" "t2" "s01" "r1" "i1"
      { uuid := "i1", game_uuid := "g1", timestamp := "t1", sus_uuid := exampleSuspectUUIDs,
        criminal_uuid := "s01" } (by decide) rfl (Or.inl rfl)).2 "g1"⟩

/-! ### Score is never decreased -/

/-- The function `NewRound` writes the table `rounds` only. -/
theorem NewRound_tables (db : Store) (f : Faults) (d : RoundDraw) (investigationUUID : String) :
    (NewRound db f d investigationUUID).1.suspects = db.suspects ∧
      (NewRound db f d investigationUUID).1.questions = db.questions ∧
      (NewRound db f d investigationUUID).1.games = db.games ∧
      (NewRound db f d investigationUUID).1.investigations = db.investigations ∧
      (NewRound db f d investigationUUID).1.eliminations = db.eliminations := by
  unfold NewRound
  simp only
  split
  · simp
  · unfold saveRound
    split <;> simp

/-- C12 (amended): for every investigation and every non-criminal suspect already
eliminated in it, a second `SaveElimination` of the same suspect on a working
store is scored like any other elimination: it records a further elimination
row next to the earlier ones, so that the suspect has at least two, and the
game's score increases again, by the level times the number of eliminations the
round then holds.  The score is an `INTEGER` and the sum stays below `2^63`. -/
theorem SaveElimination_again_scores (db : Store) (f : Faults)
    (newUUID timestamp suspectUUID roundUUID investigationUUID : String)
    (row : InvestigationRow) (s : Int)
    (h1 : f.insertElimination = false) (h2 : f.selectCriminal = false)
    (h3 : f.countInvestigations = false) (h4 : f.selectEliminations = false)
    (h5 : f.updateScore = false)
    (hnew : ∀ e ∈ db.eliminations, e.UUID ≠ newUUID)
    (hrow : db.investigations.find? (fun r => r.uuid = investigationUUID) = some row)
    (hc : row.criminal_uuid ≠ suspectUUID)
    (hbefore : ∃ e ∈ db.eliminations, e.SuspectUUID = suspectUUID ∧
      ∃ r ∈ db.rounds, r.uuid = e.RoundUUID ∧ r.investigation_uuid = investigationUUID)
    (hs : storedScore db row.game_uuid = some (.integer s))
    (hlow : -2 ^ 63 ≤ s)
    (hamount : (db.investigations.countP (fun r => r.game_uuid = row.game_uuid) : Int) *
      ((db.eliminations.countP (fun e => e.RoundUUID = roundUUID) : Int) + 1) < 2 ^ 63)
    (hsum : s + (db.investigations.countP (fun r => r.game_uuid = row.game_uuid) : Int) *
      ((db.eliminations.countP (fun e => e.RoundUUID = roundUUID) : Int) + 1) < 2 ^ 63) :
    (SaveElimination db f newUUID timestamp suspectUUID roundUUID
        investigationUUID).1.eliminations =
        db.eliminations ++ [⟨newUUID, roundUUID, suspectUUID, timestamp⟩] ∧
      (SaveElimination db f newUUID timestamp suspectUUID roundUUID
        investigationUUID).1.eliminations.countP (fun e => e.SuspectUUID = suspectUUID) =
        db.eliminations.countP (fun e => e.SuspectUUID = suspectUUID) + 1 ∧
      2 ≤ (SaveElimination db f newUUID timestamp suspectUUID roundUUID
        investigationUUID).1.eliminations.countP (fun e => e.SuspectUUID = suspectUUID) ∧
      storedScore (SaveElimination db f newUUID timestamp suspectUUID roundUUID
          investigationUUID).1 row.game_uuid =
        some (.integer
          (s + (db.investigations.countP (fun r => r.game_uuid = row.game_uuid) : Int) *
            ((db.eliminations.countP (fun e => e.RoundUUID = roundUUID) : Int) + 1))) ∧
      s < s + (db.investigations.countP (fun r => r.game_uuid = row.game_uuid) : Int) *
        ((db.eliminations.countP (fun e => e.RoundUUID = roundUUID) : Int) + 1) := by
  have hrec := SaveElimination_eliminations db f newUUID timestamp suspectUUID roundUUID
    investigationUUID h1 hnew
  have hcount : (SaveElimination db f newUUID timestamp suspectUUID roundUUID
      investigationUUID).1.eliminations.countP (fun e => e.SuspectUUID = suspectUUID) =
      db.eliminations.countP (fun e => e.SuspectUUID = suspectUUID) + 1 := by
    rw [hrec]
    simp [List.countP_append, List.countP_cons]
  have hone : 0 < db.eliminations.countP (fun e => e.SuspectUUID = suspectUUID) := by
    obtain ⟨e, he, hsus, _⟩ := hbefore
    rw [List.countP_pos_iff]
    exact ⟨e, he, by simpa using hsus⟩
  refine ⟨hrec, hcount, by omega, SaveElimination_innocent db f newUUID timestamp suspectUUID
    roundUUID investigationUUID row s h1 h2 h3 h4 h5 hnew hrow hc hs hlow hamount hsum, ?_⟩
  have hlevel : 0 < db.investigations.countP (fun r => r.game_uuid = row.game_uuid) := by
    rw [List.countP_pos_iff]
    exact ⟨row, List.mem_of_find?_eq_some hrow, by simp⟩
  have hpos : (0 : Int) <
      (db.investigations.countP (fun r => r.game_uuid = row.game_uuid) : Int) *
        ((db.eliminations.countP (fun e => e.RoundUUID = roundUUID) : Int) + 1) :=
    mul_pos (by exact_mod_cast hlevel) (by positivity)
  omega

/-- Counterexample to C12 as stated: in the example store (level 2, score 5) the
innocent `s02` is eliminated in round `r1`, which brings the score to 7, and
eliminated there a second time, which brings it to 11 and leaves two elimination
rows of `s02`. -/
theorem SaveElimination_again_counterexample :
    storedScore (saveEliminations (exampleStore []) [⟨{}, "e1", "t2", "s02", "r1", "i1"⟩])
        "g1" = some (.integer 7) ∧
      storedScore
        (saveEliminations (exampleStore [])
          [⟨{}, "e1", "t2", "s02", "r1", "i1"⟩, ⟨{}, "e2", "t3", "s02", "r1", "i1"⟩])
        "g1" = some (.integer 11) ∧
      (saveEliminations (exampleStore [])
          [⟨{}, "e1", "t2", "s02", "r1", "i1"⟩, ⟨{}, "e2", "t3", "s02", "r1", "i1"⟩]).eliminations =
        [⟨"e1", "r1", "s02", "t2"⟩, ⟨"e2", "r1", "s02", "t3"⟩] := by
  decide

/-- Witness of C12: the second elimination of `s02` in the round `r1` of the
example store, where `s02` is already eliminated. -/
theorem SaveElimination_again_scores_witness :
    storedScore (exampleStore (exampleEliminations ["s02"])) "g1" = some (.integer 5) ∧
      (SaveElimination (exampleStore (exampleEliminations ["s02"])) {} "e2" "t3" "s02" "r1"
          "i1").1.eliminations =
        (exampleStore (exampleEliminations ["s02"])).eliminations ++
          [⟨"e2", "r1", "s02", "t3"⟩] ∧
      storedScore
        (SaveElimination (exampleStore (exampleEliminations ["s02"])) {} "e2" "t3" "s02" "r1"
          "i1").1 "g1" = some (.integer (5 + 2 * (1 + 1))) :=
  have h := SaveElimination_again_scores (exampleStore (exampleEliminations ["s02"])) {} "e2" "t3"
      "s02" "r1" "i1"
      { uuid := "i1", game_uuid := "g1", timestamp := "t1", sus_uuid := exampleSuspectUUIDs,
        criminal_uuid := "s01" } 5
      rfl rfl rfl rfl rfl (by decide) (by decide) (by decide)
      ⟨⟨"es02", "r1", "s02", "t2"⟩, by decide, rfl,
        ⟨"r1", "i1", "q1", "", "t1"⟩, by decide, rfl, rfl⟩ (by decide) (by decide) (by decide)
      (by decide)
  ⟨by decide, h.1, h.2.2.2.1⟩

/-- C13 (amended): the number of eliminations recorded for an investigation is
not bounded by the pool size.  Every `SaveElimination` call that records an
elimination in a round of the investigation adds a record, so after a sequence
of such calls there are at least as many records more as there were calls, and
more than 15 records after more than 15 calls. -/
theorem eliminationRecords_not_bounded (investigationUUID : String) (db : Store)
    (calls : List EliminationCall) (hrec : RecordedIn investigationUUID db calls) :
    eliminationRecords db investigationUUID + calls.length ≤
        eliminationRecords (saveEliminations db calls) investigationUUID ∧
      (15 < calls.length →
        15 < eliminationRecords (saveEliminations db calls) investigationUUID) := by
  have h := saveEliminations_records investigationUUID db calls hrec
  exact ⟨h, fun hlen => by omega⟩

/-- Counterexample to C13 as stated: after the fifteen suspects of the example
store are eliminated in round `r1` and `s02` is eliminated once more, every call
has returned without error and the investigation `i1` has 16 elimination
records, which `getCurrentInvestigation` returns in its rounds. -/
theorem eliminationRecords_exceed_counterexample :
    eliminationRecords
        (saveEliminations (exampleStore [])
          (exampleCalls exampleSuspectUUIDs ++ [⟨{}, "again", "t3", "s02", "r1", "i1"⟩]))
        "i1" = 16 ∧
      (getCurrentInvestigation
        (saveEliminations (exampleStore [])
          (exampleCalls exampleSuspectUUIDs ++ [⟨{}, "again", "t3", "s02", "r1", "i1"⟩]))
        {} "g1").2 = none ∧
      (eliminatedSuspects (getCurrentInvestigation
        (saveEliminations (exampleStore [])
          (exampleCalls exampleSuspectUUIDs ++ [⟨{}, "again", "t3", "s02", "r1", "i1"⟩]))
        {} "g1").1.Rounds).length = 16 := by
  decide

/-- Witness of C13: two eliminations recorded in the round `r1` of the example
store. -/
theorem eliminationRecords_not_bounded_witness :
    eliminationRecords (exampleStore []) "i1" + 2 ≤
      eliminationRecords (saveEliminations (exampleStore []) (exampleCalls ["s02", "s03"]))
        "i1" :=
  (eliminationRecords_not_bounded "i1" (exampleStore []) (exampleCalls ["s02", "s03"])
    ⟨rfl, by decide, by decide, rfl, by decide, by decide, trivial⟩).1

/-! ### Answers -/

/-- The answers read after the `UPDATE` statement of `SaveAnswer`: the written
answer for the updated round, the stored one for every other. -/
theorem find_updateAnswer (answer roundUUID other : String) (rounds : List RoundRow) :
    ((updateAnswer answer roundUUID rounds).find? (fun r => r.uuid = other)).map
        (fun r => r.answer) =
      ((rounds.find? (fun r => r.uuid = other)).map (fun r => r.answer)).map
        (fun a => if other = roundUUID then answer else a) := by
  induction rounds with
  | nil => rfl
  | cons x rest ih =>
    have hcons : updateAnswer answer roundUUID (x :: rest) =
        (if x.uuid = roundUUID then { x with answer := answer } else x) ::
          updateAnswer answer roundUUID rest := rfl
    rw [hcons, List.find?_cons, List.find?_cons]
    by_cases ho : x.uuid = other
    · subst ho
      by_cases hg : x.uuid = roundUUID
      · simp [hg]
      · simp [hg]
    · by_cases hg : x.uuid = roundUUID
      · subst hg
        simp only [if_true, ho, decide_False]
        exact ih
      · simp only [hg, if_false, ho, decide_False]
        exact ih

/-- C14 (amended): for every round whose answer has already been recorded with a
text `a`, a second `SaveAnswer b roundUUID` whose update succeeds leaves the
round's stored answer equal to `b`: the last answer written wins, and the
answer of every other round is left as it is. -/
theorem SaveAnswer_overwrites (db : Store) (f : Faults) (a b roundUUID : String)
    (hf : f.updateAnswer = false) (ha : storedAnswer db roundUUID = some a) :
    storedAnswer (SaveAnswer db f b roundUUID).1 roundUUID = some b ∧
      ∀ other, other ≠ roundUUID →
        storedAnswer (SaveAnswer db f b roundUUID).1 other = storedAnswer db other := by
  have hrounds : (SaveAnswer db f b roundUUID).1.rounds = updateAnswer b roundUUID db.rounds := by
    unfold SaveAnswer
    rw [if_neg (by simp [hf])]
    simp only
    split <;> rfl
  unfold storedAnswer at ha ⊢
  rw [hrounds]
  refine ⟨?_, ?_⟩
  · rw [find_updateAnswer, ha]
    simp
  · intro other hne
    rw [find_updateAnswer]
    simp [hne, Function.comp_def]

/-- Counterexample to C14 as stated: the round `r1` of the example store gets
the answer `YES`; a second `SaveAnswer` with `NO` returns without error and the
stored answer is `NO`. -/
theorem SaveAnswer_overwrites_counterexample :
    storedAnswer (SaveAnswer (exampleStore []) {} "YES" "r1").1 "r1" = some "YES" ∧
      (SaveAnswer (SaveAnswer (exampleStore []) {} "YES" "r1").1 {} "NO" "r1").2 = none ∧
      storedAnswer (SaveAnswer (SaveAnswer (exampleStore []) {} "YES" "r1").1 {} "NO" "r1").1
        "r1" = some "NO" := by
  decide

/-- Witness of C14: the answer `YES` of the round `r1` is followed by `NO`. -/
theorem SaveAnswer_overwrites_witness :
    storedAnswer (SaveAnswer (exampleStore []) {} "YES" "r1").1 "r1" = some "YES" ∧
      storedAnswer (SaveAnswer (SaveAnswer (exampleStore []) {} "YES" "r1").1 {} "NO" "r1").1
        "r1" = some "NO" :=
  ⟨by decide,
    (SaveAnswer_overwrites (SaveAnswer (exampleStore []) {} "YES" "r1").1 {} "YES" "NO" "r1"
      rfl (by decide)).1⟩

/-- The loop of `WaitForAnswer` returns when it may run up to the pass that
checks the clock 61 seconds after the start; what it returns is empty or an
answer one of its queries found. -/
theorem WaitForAnswer_loop_returns (world : Nat → Store) (faults : Nat → Faults)
    (lag : Nat → Nat) (roundUUID : String) (fuel k : Nat) (hfuel : 62 ≤ fuel + k)
    (hpos : 1 ≤ fuel) :
    ∃ s, WaitForAnswer.loop world faults lag roundUUID fuel k = some s ∧
      (s ≠ "" → ∃ j, WaitForAnswer.poll (world j) (faults j) roundUUID = .answer s) := by
  induction fuel generalizing k with
  | zero => omega
  | succ fuel ih =>
    have hnext : ∃ s,
        (if k * (1 * second) + lag k > 60 * second then some ""
          else WaitForAnswer.loop world faults lag roundUUID fuel (k + 1)) = some s ∧
        (s ≠ "" → ∃ j, WaitForAnswer.poll (world j) (faults j) roundUUID = .answer s) := by
      by_cases ht : k * (1 * second) + lag k > 60 * second
      · exact ⟨"", by rw [if_pos ht], fun h => absurd rfl h⟩
      · rw [if_neg ht]
        unfold second at ht
        exact ih (k + 1) (by omega) (by omega)
    unfold WaitForAnswer.loop
    simp only
    cases hp : WaitForAnswer.poll (world k) (faults k) roundUUID with
    | noRows => exact hnext
    | failure => exact ⟨"", rfl, fun h => absurd rfl h⟩
    | answer a =>
      simp only
      by_cases ha : a = ""
      · rw [if_pos ha]
        exact hnext
      · rw [if_neg ha]
        exact ⟨a, rfl, fun _ => ⟨k, hp⟩⟩

/-- C15 (amended): `WaitForAnswer` always returns, and what it returns is the
empty text or a non-empty answer found by one of its queries.  For every round
whose answer never becomes non-empty it therefore returns the empty text in
every outcome, when the timeout elapses and when a storage query fails alike:
the timeout is not signalled distinctly. -/
theorem WaitForAnswer_empty_result (world : Nat → Store) (faults : Nat → Faults)
    (lag : Nat → Nat) (roundUUID : String) :
    (∃ s, WaitForAnswer world faults lag roundUUID = some s ∧
        (s ≠ "" → ∃ j, WaitForAnswer.poll (world j) (faults j) roundUUID = .answer s)) ∧
      ((∀ j a, WaitForAnswer.poll (world j) (faults j) roundUUID = .answer a → a = "") →
        WaitForAnswer world faults lag roundUUID = some "") := by
  obtain ⟨s, hs, hfound⟩ := WaitForAnswer_loop_returns world faults lag roundUUID 62 0
    (by omega) (by omega)
  refine ⟨⟨s, hs, hfound⟩, ?_⟩
  intro hnever
  by_cases he : s = ""
  · rw [← he]
    exact hs
  · obtain ⟨j, hj⟩ := hfound he
    exact absurd (hnever j s hj) he

/-- Counterexample to C15 as stated, on the round `r1` of the example store,
whose answer stays empty.  With a working store 61 passes do not end the wait
and the 62nd returns the empty text on the timeout.  With a failing query the
first pass returns the empty text.  The two results are equal. -/
theorem WaitForAnswer_timeout_counterexample :
    WaitForAnswer.loop (fun _ => exampleStore []) (fun _ => {}) (fun _ => 0) "r1" 61 0 = none ∧
      WaitForAnswer (fun _ => exampleStore []) (fun _ => {}) (fun _ => 0) "r1" = some "" ∧
      WaitForAnswer.loop (fun _ => exampleStore [])
        (fun _ => ({ selectAnswer := true } : Faults)) (fun _ => 0) "r1" 1 0 = some "" ∧
      WaitForAnswer (fun _ => exampleStore [])
        (fun _ => ({ selectAnswer := true } : Faults)) (fun _ => 0) "r1" =
        WaitForAnswer (fun _ => exampleStore []) (fun _ => {}) (fun _ => 0) "r1" := by
  decide

/-- Witness of C15: the round `r1` of the example store, whose answer stays
empty while the storage works. -/
theorem WaitForAnswer_empty_result_witness :
    WaitForAnswer (fun _ => exampleStore []) (fun _ => {}) (fun _ => 0) "r1" = some "" :=
  (WaitForAnswer_empty_result (fun _ => exampleStore []) (fun _ => {}) (fun _ => 0) "r1").2
    (by
      intro j a h
      have hp : WaitForAnswer.poll (exampleStore []) {} "r1" = .answer "" := by decide
      rw [hp] at h
      exact (Poll.answer.inj h).symm)

/-! ### New games and investigations -/

/-- The clause `ORDER BY RANDOM()` permutes the rows. -/
theorem orderByRandom_perm {α : Type} (keys : List Nat) (rows : List α) :
    (orderByRandom keys rows).Perm rows := by
  unfold orderByRandom
  have h := (List.perm_insertionSort (fun a b : Nat × α => a.1 ≤ b.1)
    (rows.enum.map (fun x => (keys.getD x.1 0, x.2)))).map Prod.snd
  have h2 : List.map Prod.snd (rows.enum.map (fun x => (keys.getD x.1 0, x.2))) = rows := by
    rw [List.map_map]
    exact List.enum_map_snd rows
  rw [h2] at h
  exact h

/-- With a working query and a question in the catalogue `GetRandomQuestion`
returns one of its questions. -/
theorem GetRandomQuestion_ok (db : Store) (f : Faults) (keys : List Nat)
    (hf : f.selectRandomQuestion = false) (hq : db.questions ≠ []) :
    ∃ q ∈ db.questions, GetRandomQuestion db f keys = (q, none) := by
  have hperm := orderByRandom_perm keys db.questions
  unfold GetRandomQuestion
  rw [hf]
  cases hl : orderByRandom keys db.questions with
  | nil =>
    rw [hl] at hperm
    exact absurd hperm.symm.eq_nil hq
  | cons q rest =>
    rw [hl] at hperm
    exact ⟨q, hperm.subset (List.mem_cons_self _ _), rfl⟩

/-- With a working store and a question in the catalogue `NewRound` returns,
without error, a round with one of the questions and an empty answer, and
leaves its row in the table `rounds`. -/
theorem NewRound_ok (db : Store) (f : Faults) (d : RoundDraw) (investigationUUID : String)
    (hf1 : f.selectRandomQuestion = false) (hf2 : f.insertRound = false)
    (hq : db.questions ≠ []) :
    ∃ q ∈ db.questions,
      NewRound db f d investigationUUID =
        ({ db with
           rounds :=
             insertOrReplaceRound ⟨d.uuid, investigationUUID, q.UUID, "", d.timestamp⟩
               db.rounds },
          { UUID := d.uuid, InvestigationUUID := investigationUUID, Timestamp := d.timestamp,
            Question := q }, none) := by
  obtain ⟨q, hmem, hq⟩ := GetRandomQuestion_ok db f d.questionKeys hf1 hq
  refine ⟨q, hmem, ?_⟩
  unfold NewRound saveRound
  simp only [hq, hf2]
  rfl

/-- With a working query and at least 15 suspects in the catalogue
`randomSuspects` returns 15 suspects. -/
theorem randomSuspects_ok (db : Store) (f : Faults) (keys : List Nat)
    (hf : f.selectRandomSuspects = false) (hs : 15 ≤ db.suspects.length) :
    (randomSuspects db f keys).2 = none ∧ (randomSuspects db f keys).1.length = 15 := by
  unfold randomSuspects
  rw [hf]
  refine ⟨rfl, ?_⟩
  simp only [Bool.false_eq_true, if_false, List.length_map, List.length_take,
    (orderByRandom_perm keys db.suspects).length_eq]
  unfold numSuspect
  simp
  omega

/-- A number `rand.IntN n` returns lies in `[0, n)`. -/
theorem intN_range (raw : Nat) (n c : Int) (h : intN raw n = some c) : 0 ≤ c ∧ c < n := by
  unfold intN at h
  split at h
  · simp at h
  · rename_i hn
    have hc : (raw : Int) % n = c := Option.some.inj h
    rw [← hc]
    exact ⟨Int.emod_nonneg _ (by omega), Int.emod_lt_of_pos _ (by omega)⟩

/-- A successful `saveInvestigation` was given 15 suspects and leaves the row of
the investigation in the table. -/
theorem saveInvestigation_ok (db : Store) (f : Faults) (i : Investigation)
    (h : (saveInvestigation db f i).2 = none) :
    i.Suspects.length = 15 ∧
      (saveInvestigation db f i).1.investigations =
        insertOrReplaceInvestigation
          ⟨i.UUID, i.GameUUID, i.Timestamp, i.Suspects.map (fun s => s.UUID), i.CriminalUUID⟩
          db.investigations := by
  unfold saveInvestigation at h ⊢
  by_cases hlen : i.Suspects.length ≠ 15
  · rw [if_pos hlen] at h
    simp at h
  · rw [if_neg hlen] at h ⊢
    by_cases hf : f.insertInvestigation = true
    · rw [if_pos hf] at h
      simp at h
    · rw [if_neg hf]
      exact ⟨by simpa using hlen, rfl⟩

/-- A failed `saveInvestigation` leaves the store as it is. -/
theorem saveInvestigation_failed (db : Store) (f : Faults) (i : Investigation) (err : String)
    (h : (saveInvestigation db f i).2 = some err) : (saveInvestigation db f i).1 = db := by
  unfold saveInvestigation at h ⊢
  split
  · rfl
  · split
    · rfl
    · rename_i h1 h2
      rw [if_neg h1, if_neg h2] at h
      simp at h

/-- A failed `NewRound` leaves the store as it is. -/
theorem NewRound_failed (db : Store) (f : Faults) (d : RoundDraw) (investigationUUID : String)
    (err : String) (h : (NewRound db f d investigationUUID).2.2 = some err) :
    (NewRound db f d investigationUUID).1 = db := by
  unfold NewRound at h ⊢
  simp only at h ⊢
  split
  · rfl
  · rename_i hq
    rw [hq] at h
    simp only at h
    unfold saveRound at h ⊢
    split
    · rfl
    · rename_i hf
      rw [if_neg hf] at h
      simp at h

/-- A successful `NewRound` leaves the row of the round in the table `rounds`. -/
theorem NewRound_saved (db : Store) (f : Faults) (d : RoundDraw) (investigationUUID : String)
    (h : (NewRound db f d investigationUUID).2.2 = none) :
    ∃ row ∈ (NewRound db f d investigationUUID).1.rounds,
      row.uuid = d.uuid ∧ row.investigation_uuid = investigationUUID := by
  unfold NewRound at h ⊢
  simp only at h ⊢
  split
  · rename_i e hq
    rw [hq] at h
    simp at h
  · rename_i hq
    rw [hq] at h
    simp only at h
    unfold saveRound at h ⊢
    split
    · rename_i hf
      rw [if_pos hf] at h
      simp at h
    · exact ⟨⟨d.uuid, investigationUUID, (GetRandomQuestion db f d.questionKeys).1.UUID, "",
        d.timestamp⟩, by simp [insertOrReplaceRound], rfl, rfl⟩

/-- C18: for every investigation that `NewInvestigation` returns without error,
`CriminalUUID` equals the `UUID` of one of the 15 suspects in the investigation's
`Suspects` list, and the row persisted for the investigation has 15 suspect
slots, one of which holds its `criminal_uuid`, the `CriminalUUID` returned. -/
theorem NewInvestigation_criminal_in_pool (db : Store) (f : Faults) (d : InvestigationDraw)
    (gameUUID : String) (i : Investigation)
    (h : (NewInvestigation db f d gameUUID).2 = .returned (i, none)) :
    (∃ s ∈ i.Suspects, s.UUID = i.CriminalUUID) ∧ i.Suspects.length = 15 ∧
      ∃ row ∈ (NewInvestigation db f d gameUUID).1.investigations,
        row.uuid = i.UUID ∧ row.criminal_uuid = i.CriminalUUID ∧ row.sus_uuid.length = 15 ∧
          row.criminal_uuid ∈ row.sus_uuid := by
  cases hr : (NewRound db f d.round d.uuid).2.2 with
  | some e =>
    simp only [NewInvestigation, hr] at h
    simp at h
  | none =>
    cases hs : (randomSuspects (NewRound db f d.round d.uuid).1 f d.suspectKeys).2 with
    | some e =>
      simp only [NewInvestigation, hr, hs] at h
      simp at h
    | none =>
      cases hn : intN d.criminal
          ((randomSuspects (NewRound db f d.round d.uuid).1 f d.suspectKeys).1.length : Int) with
      | none =>
        simp only [NewInvestigation, hr, hs, hn] at h
        simp at h
      | some cn =>
        obtain ⟨h0, hlt⟩ := intN_range _ _ _ hn
        have hlt' : cn.toNat <
            (randomSuspects (NewRound db f d.round d.uuid).1 f d.suspectKeys).1.length := by
          omega
        simp only [NewInvestigation, hr, hs, hn] at h ⊢
        generalize (randomSuspects (NewRound db f d.round d.uuid).1 f d.suspectKeys).1 = S
          at h hlt' ⊢
        obtain ⟨hi, hsaved⟩ := Prod.mk.inj (Outcome.returned.inj h)
        obtain ⟨hlen, hrows⟩ := saveInvestigation_ok _ f _ hsaved
        rw [hrows]
        subst hi
        simp only at hlen ⊢
        have hcrim : ∃ s ∈ S, s.UUID = (S.getD cn.toNat {}).UUID :=
          ⟨_, List.getElem_mem hlt', by rw [List.getD_eq_getElem _ _ hlt']⟩
        refine ⟨hcrim, hlen,
          ⟨d.uuid, gameUUID, d.timestamp, S.map (fun s => s.UUID), (S.getD cn.toNat {}).UUID⟩,
          by simp [insertOrReplaceInvestigation], rfl, rfl, ?_, ?_⟩
        · simpa using hlen
        · obtain ⟨s, hsmem, hsu⟩ := hcrim
          exact List.mem_map.2 ⟨s, hsmem, hsu⟩

/-- Witness of C18: the investigation created for the game `g1` of the example
store. -/
theorem NewInvestigation_criminal_in_pool_witness :
    (NewInvestigation (exampleStore []) {} exampleGameDraw.investigation "g1").2 =
        .returned (exampleCreated, none) ∧
      ∃ s ∈ exampleCreated.Suspects, s.UUID = exampleCreated.CriminalUUID :=
  ⟨by decide,
    (NewInvestigation_criminal_in_pool (exampleStore []) {} exampleGameDraw.investigation "g1"
      exampleCreated (by decide)).1⟩

/-- With an empty catalogue of suspects, a saved round and a working query
`NewInvestigation` does not return: `rand.IntN(0)` panics, and the round stays
saved. -/
theorem NewInvestigation_empty_catalogue (db : Store) (f : Faults) (d : InvestigationDraw)
    (gameUUID : String) (hempty : db.suspects = [])
    (hr : (NewRound db f d.round d.uuid).2.2 = none) (hf : f.selectRandomSuspects = false) :
    NewInvestigation db f d gameUUID =
      ((NewRound db f d.round d.uuid).1, .panicked "invalid argument to IntN") := by
  have hsus : randomSuspects (NewRound db f d.round d.uuid).1 f d.suspectKeys = ([], none) := by
    unfold randomSuspects
    rw [hf, (NewRound_tables db f d.round d.uuid).1, hempty]
    have hnil : orderByRandom d.suspectKeys ([] : List SuspectRow) = [] :=
      (orderByRandom_perm d.suspectKeys []).eq_nil
    rw [hnil]
    rfl
  simp only [NewInvestigation, hr, hsus]
  rfl

/-- With a catalogue of 1 to 14 suspects `NewInvestigation` returns an error. -/
theorem NewInvestigation_short_catalogue (db : Store) (f : Faults) (d : InvestigationDraw)
    (gameUUID : String) (hne : db.suspects ≠ []) (hshort : db.suspects.length < 15) :
    ∃ err, (NewInvestigation db f d gameUUID).2.result.map Prod.snd = some (some err) := by
  cases hr : (NewRound db f d.round d.uuid).2.2 with
  | some e =>
    simp only [NewInvestigation, hr]
    exact ⟨e, rfl⟩
  | none =>
    cases hs : (randomSuspects (NewRound db f d.round d.uuid).1 f d.suspectKeys).2 with
    | some e =>
      simp only [NewInvestigation, hr, hs]
      exact ⟨e, rfl⟩
    | none =>
      have hlen : (randomSuspects (NewRound db f d.round d.uuid).1 f d.suspectKeys).1.length =
          db.suspects.length := by
        unfold randomSuspects at hs ⊢
        split at hs
        · simp at hs
        · rename_i hf
          rw [if_neg hf]
          simp only [List.length_map, List.length_take,
            (orderByRandom_perm _ _).length_eq, (NewRound_tables db f d.round d.uuid).1]
          unfold numSuspect
          simp
          omega
      have hpos : 0 < db.suspects.length := List.length_pos.2 hne
      cases hn : intN d.criminal
          ((randomSuspects (NewRound db f d.round d.uuid).1 f d.suspectKeys).1.length : Int) with
      | none =>
        unfold intN at hn
        rw [hlen, if_neg (by omega)] at hn
        simp at hn
      | some cn =>
        simp only [NewInvestigation, hr, hs, hn]
        refine ⟨"Investigation does not have 15 suspects", ?_⟩
        unfold saveInvestigation
        simp only
        rw [if_pos (by rw [hlen]; omega)]
        rfl

/-- C19 at the empty catalogue: in the example store without suspects
`NewInvestigation` saves the round `r2` and then panics in `rand.IntN(0)`; it
returns no error. -/
theorem NewInvestigation_empty_catalogue_panics :
    (exampleStoreWithSuspects 0).suspects = [] ∧
      (NewInvestigation (exampleStoreWithSuspects 0) {} exampleGameDraw.investigation "g1").2 =
        .panicked "invalid argument to IntN" ∧
      (NewInvestigation (exampleStoreWithSuspects 0) {} exampleGameDraw.investigation
        "g1").2.result = none := by
  decide

/-- C20 (amended): whenever `NewInvestigation` returns an error, no investigation
row was added by the call.  When the error comes from `NewRound` the store is as
before the call; when it comes later (the suspect selection fails, the pool has
the wrong size, or the investigation cannot be saved) the store is the one
`NewRound` left, with the row of the new round in the table `rounds`. -/
theorem NewInvestigation_error_state (db : Store) (f : Faults) (d : InvestigationDraw)
    (gameUUID : String) (i : Investigation) (err : String)
    (h : (NewInvestigation db f d gameUUID).2 = .returned (i, some err)) :
    (NewInvestigation db f d gameUUID).1.investigations = db.investigations ∧
      ((NewRound db f d.round d.uuid).2.2 ≠ none → (NewInvestigation db f d gameUUID).1 = db) ∧
      ((NewRound db f d.round d.uuid).2.2 = none →
        (NewInvestigation db f d gameUUID).1 = (NewRound db f d.round d.uuid).1 ∧
        ∃ row ∈ (NewInvestigation db f d gameUUID).1.rounds,
          row.uuid = d.round.uuid ∧ row.investigation_uuid = d.uuid) := by
  have hinv := (NewRound_tables db f d.round d.uuid).2.2.2.1
  cases hr : (NewRound db f d.round d.uuid).2.2 with
  | some e =>
    have hstore : (NewInvestigation db f d gameUUID).1 = db := by
      simp only [NewInvestigation, hr]
      exact NewRound_failed db f d.round d.uuid e hr
    exact ⟨by rw [hstore], fun _ => hstore, fun hnone => by simp at hnone⟩
  | none =>
    have hstore : (NewInvestigation db f d gameUUID).1 = (NewRound db f d.round d.uuid).1 := by
      cases hs : (randomSuspects (NewRound db f d.round d.uuid).1 f d.suspectKeys).2 with
      | some e => simp only [NewInvestigation, hr, hs]
      | none =>
        cases hn : intN d.criminal
            ((randomSuspects (NewRound db f d.round d.uuid).1 f d.suspectKeys).1.length : Int)
          with
        | none => simp only [NewInvestigation, hr, hs, hn]
        | some cn =>
          simp only [NewInvestigation, hr, hs, hn] at h ⊢
          obtain ⟨_, hsaved⟩ := Prod.mk.inj (Outcome.returned.inj h)
          exact saveInvestigation_failed _ f _ err hsaved
    refine ⟨by rw [hstore, hinv], fun hne => absurd rfl hne, fun _ => ⟨hstore, ?_⟩⟩
    rw [hstore]
    exact NewRound_saved db f d.round d.uuid hr

/-- Counterexample to C20 as stated: with 14 suspects in the catalogue of the
example store `NewInvestigation` returns an error, and the row of the round `r2`,
which was not stored before, is in the table `rounds` after the call. -/
theorem NewInvestigation_error_counterexample :
    ((NewInvestigation (exampleStoreWithSuspects 14) {} exampleGameDraw.investigation
        "g1").2.result.map Prod.snd) = some (some "Investigation does not have 15 suspects") ∧
      (exampleStoreWithSuspects 14).rounds.find? (fun r => r.uuid = "r2") = none ∧
      (NewInvestigation (exampleStoreWithSuspects 14) {} exampleGameDraw.investigation
        "g1").1.rounds.find? (fun r => r.uuid = "r2") =
        some ⟨"r2", "i2", "q1", "", "t5"⟩ := by
  decide

/-- Witness of C20: the call on the example store with 14 suspects. -/
theorem NewInvestigation_error_state_witness :
    (NewInvestigation (exampleStoreWithSuspects 14) {} exampleGameDraw.investigation
        "g1").1.investigations = (exampleStoreWithSuspects 14).investigations :=
  (NewInvestigation_error_state (exampleStoreWithSuspects 14) {} exampleGameDraw.investigation
    "g1"
    ((((NewInvestigation (exampleStoreWithSuspects 14) {} exampleGameDraw.investigation
      "g1").2.result).map Prod.fst).getD {})
    "Investigation does not have 15 suspects" (by decide)).1

/-- With a working store, a question and at least 15 suspects in the catalogue
`NewInvestigation` returns, without error, an investigation with 15 suspects and
one round, that round having a question of the catalogue and an empty answer;
its row is in the table `investigations`. -/
theorem NewInvestigation_ok (db : Store) (f : Faults) (d : InvestigationDraw)
    (gameUUID : String)
    (hf1 : f.selectRandomQuestion = false) (hf2 : f.insertRound = false)
    (hf3 : f.selectRandomSuspects = false) (hf4 : f.insertInvestigation = false)
    (hq : db.questions ≠ []) (hs : 15 ≤ db.suspects.length) :
    ∃ i, (NewInvestigation db f d gameUUID).2 = .returned (i, none) ∧
      i.Suspects.length = 15 ∧
      (∃ round, i.Rounds = [round] ∧ round.Question ∈ db.questions ∧ round.Answer = "") ∧
      (NewInvestigation db f d gameUUID).1.investigations =
        insertOrReplaceInvestigation
          ⟨d.uuid, gameUUID, d.timestamp, i.Suspects.map (fun s => s.UUID), i.CriminalUUID⟩
          db.investigations := by
  obtain ⟨q, hqmem, hround⟩ := NewRound_ok db f d.round d.uuid hf1 hf2 hq
  have hr : (NewRound db f d.round d.uuid).2.2 = none := by rw [hround]
  have hq1 : (NewRound db f d.round d.uuid).2.1.Question = q := by rw [hround]
  have ha1 : (NewRound db f d.round d.uuid).2.1.Answer = "" := by rw [hround]
  have hi1 := (NewRound_tables db f d.round d.uuid).2.2.2.1
  obtain ⟨hs2, hslen⟩ := randomSuspects_ok (NewRound db f d.round d.uuid).1 f d.suspectKeys hf3
    (by rw [(NewRound_tables db f d.round d.uuid).1]; exact hs)
  cases hn : intN d.criminal
      ((randomSuspects (NewRound db f d.round d.uuid).1 f d.suspectKeys).1.length : Int) with
  | none =>
    unfold intN at hn
    rw [hslen] at hn
    simp at hn
  | some cn =>
    simp only [NewInvestigation, hr, hs2, hn]
    generalize (randomSuspects (NewRound db f d.round d.uuid).1 f d.suspectKeys).1 = S
      at hslen ⊢
    have hsave : ∀ i : Investigation, i.Suspects.length = 15 →
        saveInvestigation (NewRound db f d.round d.uuid).1 f i =
          ({ (NewRound db f d.round d.uuid).1 with
             investigations :=
               insertOrReplaceInvestigation
                 ⟨i.UUID, i.GameUUID, i.Timestamp, i.Suspects.map (fun s => s.UUID),
                   i.CriminalUUID⟩
                 (NewRound db f d.round d.uuid).1.investigations }, none) := by
      intro i hi
      unfold saveInvestigation
      rw [if_neg (by simp [hi]), hf4]
      rfl
    rw [hsave _ hslen]
    refine ⟨_, rfl, hslen, ⟨_, rfl, ?_, ha1⟩, ?_⟩
    · rw [hq1]
      exact hqmem
    · simp only [hi1]

/-- The level of a game whose only investigation was just saved is 1. -/
theorem level_after_first_investigation (row : InvestigationRow) (rows : List InvestigationRow)
    (hfresh : ∀ r ∈ rows, r.game_uuid ≠ row.game_uuid) :
    ((insertOrReplaceInvestigation row rows).filter
      (fun r => r.game_uuid = row.game_uuid)).length = 1 := by
  unfold insertOrReplaceInvestigation
  rw [List.filter_append]
  have hnone : (rows.filter (fun x => x.uuid ≠ row.uuid)).filter
      (fun r => r.game_uuid = row.game_uuid) = [] := by
    rw [List.filter_eq_nil_iff]
    intro r hr
    simpa using hfresh r (List.mem_of_mem_filter hr)
  rw [hnone]
  simp [List.filter]

/-- C17: for every player UUID and model, when the catalogue holds at least 15
suspects and at least one question, the store works and the drawn game
identifier is new, `NewGame` returns without error a game with `Level = 1`,
`Score = 0`, `GameOver = false`, the given player and model, and an
investigation that has exactly 15 suspects and exactly one round, that round
having a question from the catalogue and an empty answer. -/
theorem NewGame_initial (db : Store) (f : Faults) (d : GameDraw) (playerUUID model : String)
    (hf0 : f.insertGame = false) (hf1 : f.selectRandomQuestion = false)
    (hf2 : f.insertRound = false) (hf3 : f.selectRandomSuspects = false)
    (hf4 : f.insertInvestigation = false) (hf5 : f.countInvestigations = false)
    (hq : db.questions ≠ []) (hs : 15 ≤ db.suspects.length)
    (hfresh1 : ∀ g ∈ db.games, g.uuid ≠ d.uuid)
    (hfresh2 : ∀ r ∈ db.investigations, r.game_uuid ≠ d.uuid) :
    ∃ game, (NewGame db f d playerUUID model).2 = .returned (game, none) ∧
      game.Level = 1 ∧ game.Score = 0 ∧ game.GameOver = false ∧
      game.Investigator.UUID = playerUUID ∧ game.Model = model ∧
      game.Investigation.Suspects.length = 15 ∧
      ∃ round, game.Investigation.Rounds = [round] ∧ round.Question ∈ db.questions ∧
        round.Answer = "" := by
  have hany : db.games.any (fun g => g.uuid = d.uuid) = false := by
    rw [List.any_eq_false]
    intro g hg
    simpa using hfresh1 g hg
  have hsave : ∀ game : Game, game.UUID = d.uuid →
      saveGame db f game =
        ({ db with
           games :=
             db.games ++
               [⟨game.UUID, game.Timestamp, .integer game.Score, game.Investigator.Name,
                 game.Investigator.UUID, game.Model⟩] }, none) := by
    intro game hg
    unfold saveGame
    rw [hf0, hg, hany]
    rfl
  obtain ⟨i, hNI, hlen, hround, hinvs⟩ := NewInvestigation_ok
    { db with
      games := db.games ++
        [⟨d.uuid, d.timestamp, .integer 0, defaultPlayerName, playerUUID, model⟩] }
    f d.investigation d.uuid hf1 hf2 hf3 hf4 hq hs
  have hlevel : GetLevel (NewInvestigation
      { db with
        games := db.games ++
        [⟨d.uuid, d.timestamp, .integer 0, defaultPlayerName, playerUUID, model⟩] }
      f d.investigation d.uuid).1 f d.uuid = (1, none) := by
    unfold GetLevel
    rw [hf5, hinvs]
    have h1 := level_after_first_investigation
      ⟨d.investigation.uuid, d.uuid, d.investigation.timestamp,
        i.Suspects.map (fun s => s.UUID), i.CriminalUUID⟩ db.investigations hfresh2
    simp only at h1
    simp only [Bool.false_eq_true, if_false, h1]
    rfl
  simp only [NewGame]
  rw [hsave _ rfl]
  simp only [hNI, hlevel]
  exact ⟨_, rfl, rfl, rfl, rfl, rfl, rfl, hlen, hround⟩

/-- Witness of C17: a new game for the player `p2` with the model `m1` in the
example store. -/
theorem NewGame_initial_witness :
    ∃ game, (NewGame (exampleStore []) {} exampleGameDraw "p2" "m1").2 = .returned (game, none) ∧
      game.Level = 1 ∧ game.Score = 0 ∧ game.GameOver = false ∧
      game.Investigator.UUID = "p2" ∧ game.Model = "m1" ∧
      game.Investigation.Suspects.length = 15 ∧
      ∃ round, game.Investigation.Rounds = [round] ∧
        round.Question ∈ (exampleStore []).questions ∧ round.Answer = "" :=
  NewGame_initial (exampleStore []) {} exampleGameDraw "p2" "m1" rfl rfl rfl rfl rfl rfl
    (by decide) (by decide) (by decide) (by decide)

/-- On the first play of a player `GetCurrentGame` calls `NewGame` with an empty
player identifier and an empty model. -/
theorem GetCurrentGame_first_play (db : Store) (f : Faults) (d : GameDraw) (playerUUID : String)
    (hf : f.selectGame = false)
    (hnone : db.games.filter (fun g => g.player_uuid = playerUUID) = []) :
    GetCurrentGame db f d playerUUID = NewGame db f d "" "" := by
  unfold GetCurrentGame
  rw [hf, hnone]
  rfl

/-- C16 at the player `p2`, who has no game in the example store:
`GetCurrentGame` returns without error a game whose `Investigator.UUID` is empty
and stores it with an empty `player_uuid`, so that `p2` has no game
afterwards either. -/
theorem GetCurrentGame_first_play_player :
    (exampleStore []).games.filter (fun g => g.player_uuid = "p2") = [] ∧
      (GetCurrentGame (exampleStore []) {} exampleGameDraw "p2").2.result.map
        (fun r => (r.1.Investigator.UUID, r.2)) = some ("", none) ∧
      (GetCurrentGame (exampleStore []) {} exampleGameDraw "p2").1.games.map
        (fun g => (g.uuid, g.player_uuid)) = [("g1", "p1"), ("g2", "")] ∧
      (GetCurrentGame (exampleStore []) {} exampleGameDraw "p2").1.games.filter
        (fun g => g.player_uuid = "p2") = [] := by
  decide

/-! ### Elimination and score are not written together -/

/-- The function `increaseScore` leaves the store as it is when one of its three
statements fails. -/
theorem increaseScore_failed (db : Store) (f : Faults) (gameUUID roundUUID : String)
    (h : f.countInvestigations = true ∨ f.selectEliminations = true ∨ f.updateScore = true) :
    increaseScore db f gameUUID roundUUID = db := by
  by_cases h1 : f.countInvestigations = true
  · simp [increaseScore, GetLevel, h1]
  by_cases h2 : f.selectEliminations = true
  · simp [increaseScore, GetLevel, getEliminationsForRound, h1, h2]
  have h3 : f.updateScore = true := by
    rcases h with h | h | h
    · exact absurd h h1
    · exact absurd h h2
    · exact h
  simp [increaseScore, GetLevel, getEliminationsForRound, h1, h2, h3]

/-- The function `increaseScore` leaves the score of every game but its own. -/
theorem increaseScore_other (db : Store) (f : Faults) (gameUUID roundUUID other : String)
    (hne : other ≠ gameUUID) :
    storedScore (increaseScore db f gameUUID roundUUID) other = storedScore db other := by
  by_cases h : f.countInvestigations = true ∨ f.selectEliminations = true ∨ f.updateScore = true
  · rw [increaseScore_failed db f gameUUID roundUUID h]
  · rw [increaseScore_ok db f gameUUID roundUUID (by simpa using fun h1 => h (Or.inl h1))
      (by simpa using fun h2 => h (Or.inr (Or.inl h2)))
      (by simpa using fun h3 => h (Or.inr (Or.inr h3)))]
    exact storedScore_updateScore_other db _ gameUUID other hne

/-- C21 (amended): for every `SaveElimination` call on a non-criminal suspect of
an investigation whose game has a non-empty identifier, with a fresh
elimination identifier.  When the insert fails, the error is returned and the
store is unchanged.  When the insert succeeds, the call returns no error and the
elimination row is recorded; the score is increased, by the level times the
eliminations of the round, when the investigation lookup, the level query, the
elimination query and the score update all succeed and the sum stays in the
64-bit range, and it is left unchanged when one of them fails: then the
elimination is recorded without its score. -/
theorem SaveElimination_not_atomic (db : Store) (f : Faults)
    (newUUID timestamp suspectUUID roundUUID investigationUUID : String)
    (row : InvestigationRow) (s : Int)
    (hnew : ∀ e ∈ db.eliminations, e.UUID ≠ newUUID)
    (hrow : db.investigations.find? (fun r => r.uuid = investigationUUID) = some row)
    (hc : row.criminal_uuid ≠ suspectUUID) (hgame : row.game_uuid ≠ "")
    (hs : storedScore db row.game_uuid = some (.integer s)) :
    (f.insertElimination = true →
        (SaveElimination db f newUUID timestamp suspectUUID roundUUID investigationUUID).1 = db ∧
        (SaveElimination db f newUUID timestamp suspectUUID roundUUID investigationUUID).2 ≠
          none) ∧
      (f.insertElimination = false →
        (SaveElimination db f newUUID timestamp suspectUUID roundUUID investigationUUID).2 =
          none ∧
        (SaveElimination db f newUUID timestamp suspectUUID roundUUID
            investigationUUID).1.eliminations =
          db.eliminations ++ [⟨newUUID, roundUUID, suspectUUID, timestamp⟩] ∧
        (f.selectCriminal = false ∧ f.countInvestigations = false ∧
            f.selectEliminations = false ∧ f.updateScore = false →
          -2 ^ 63 ≤ s →
          (db.investigations.countP (fun r => r.game_uuid = row.game_uuid) : Int) *
            ((db.eliminations.countP (fun e => e.RoundUUID = roundUUID) : Int) + 1) < 2 ^ 63 →
          s + (db.investigations.countP (fun r => r.game_uuid = row.game_uuid) : Int) *
            ((db.eliminations.countP (fun e => e.RoundUUID = roundUUID) : Int) + 1) < 2 ^ 63 →
          storedScore (SaveElimination db f newUUID timestamp suspectUUID roundUUID
              investigationUUID).1 row.game_uuid =
            some (.integer
              (s + (db.investigations.countP (fun r => r.game_uuid = row.game_uuid) : Int) *
                ((db.eliminations.countP (fun e => e.RoundUUID = roundUUID) : Int) + 1)))) ∧
        (f.selectCriminal = true ∨ f.countInvestigations = true ∨
            f.selectEliminations = true ∨ f.updateScore = true →
          storedScore (SaveElimination db f newUUID timestamp suspectUUID roundUUID
              investigationUUID).1 row.game_uuid = some (.integer s))) := by
  refine ⟨?_, ?_⟩
  · intro h1
    unfold SaveElimination
    rw [if_pos h1]
    exact ⟨rfl, by simp⟩
  · intro h1
    refine ⟨?_, SaveElimination_eliminations db f newUUID timestamp suspectUUID roundUUID
      investigationUUID h1 hnew, ?_, ?_⟩
    · rw [SaveElimination_working db f newUUID timestamp suspectUUID roundUUID
        investigationUUID h1]
      split <;> rfl
    · rintro ⟨h2, h3, h4, h5⟩ hlow hamount hsum
      exact SaveElimination_innocent db f newUUID timestamp suspectUUID roundUUID
        investigationUUID row s h1 h2 h3 h4 h5 hnew hrow hc hs hlow hamount hsum
    · intro hfail
      rw [SaveElimination_working db f newUUID timestamp suspectUUID roundUUID
        investigationUUID h1]
      by_cases h2 : f.selectCriminal = true
      · have hscan : SaveElimination.scanCriminal db f investigationUUID = ("", "") := by
          unfold SaveElimination.scanCriminal
          rw [if_pos h2]
        rw [hscan]
        split
        · rw [increaseScore_other _ f "" roundUUID row.game_uuid hgame]
          exact hs
        · exact hs
      · rw [scanCriminal_found db f investigationUUID row (by simpa using h2) hrow]
        simp only [ne_eq, hc, not_false_eq_true, if_true]
        have h3 : f.countInvestigations = true ∨ f.selectEliminations = true ∨
            f.updateScore = true := by
          rcases hfail with h | h
          · exact absurd h h2
          · exact h
        rw [increaseScore_failed _ f row.game_uuid roundUUID h3]
        exact hs

/-- Counterexample to C21 as stated: in the example store the innocent `s02` is
eliminated while the level query fails.  The call returns no error and the
elimination row is recorded, but the score of the game `g1` is still 5. -/
theorem SaveElimination_not_atomic_counterexample :
    (SaveElimination (exampleStore []) { countInvestigations := true } "e1" "t2" "s02" "r1"
        "i1").2 = none ∧
      (SaveElimination (exampleStore []) { countInvestigations := true } "e1" "t2" "s02" "r1"
        "i1").1.eliminations = [⟨"e1", "r1", "s02", "t2"⟩] ∧
      storedScore (exampleStore []) "g1" = some (.integer 5) ∧
      storedScore (SaveElimination (exampleStore []) { countInvestigations := true } "e1" "t2"
        "s02" "r1" "i1").1 "g1" = some (.integer 5) := by
  decide

/-- Witness of C21: the elimination of `s02` in the example store while the
score update fails. -/
theorem SaveElimination_not_atomic_witness :
    (SaveElimination (exampleStore []) { updateScore := true } "e1" "t2" "s02" "r1" "i1").2 =
        none ∧
      (SaveElimination (exampleStore []) { updateScore := true } "e1" "t2" "s02" "r1"
        "i1").1.eliminations = [] ++ [⟨"e1", "r1", "s02", "t2"⟩] ∧
      storedScore (SaveElimination (exampleStore []) { updateScore := true } "e1" "t2" "s02" "r1"
        "i1").1 "g1" = some (.integer 5) :=
  ⟨((SaveElimination_not_atomic (exampleStore []) { updateScore := true } "e1" "t2" "s02" "r1"
      "i1"
      { uuid := "i1", game_uuid := "g1", timestamp := "t1", sus_uuid := exampleSuspectUUIDs,
        criminal_uuid := "s01" } 5
      (by decide) (by decide) (by decide) (by decide) (by decide)).2 rfl).1,
    ((SaveElimination_not_atomic (exampleStore []) { updateScore := true } "e1" "t2" "s02" "r1"
      "i1"
      { uuid := "i1", game_uuid := "g1", timestamp := "t1", sus_uuid := exampleSuspectUUIDs,
        criminal_uuid := "s01" } 5
      (by decide) (by decide) (by decide) (by decide) (by decide)).2 rfl).2.1,
    ((SaveElimination_not_atomic (exampleStore []) { updateScore := true } "e1" "t2" "s02" "r1"
      "i1"
      { uuid := "i1", game_uuid := "g1", timestamp := "t1", sus_uuid := exampleSuspectUUIDs,
        criminal_uuid := "s01" } 5
      (by decide) (by decide) (by decide) (by decide) (by decide)).2 rfl).2.2.2
      (Or.inr (Or.inr (Or.inr rfl)))⟩

/-! ### The answer handler -/

/-- When the current game is returned without error, its service is found and
the criminal has no descriptions, the handler indexes `descriptions[0]` on the
empty slice and panics. -/
theorem GetOrGenerateAnswerHandler_no_descriptions (parse : String → Option UUID)
    (descriptionsFor : String → String → Bool → List Description × Option String)
    (generate : String → String → String → Service → String × Option String)
    (tables : ServiceStore) (db : Store) (f : Faults) (d : GameDraw) (playerUUID : String)
    (game : Game) (hp : playerUUID ≠ "")
    (hcur : (GetCurrentGame db f d playerUUID).2 = .returned (game, none))
    (hrounds : game.Investigation.Rounds ≠ [])
    (hsvc : (GetServiceForModel tables f game.Model).2 = none)
    (hdesc : descriptionsFor game.Investigation.CriminalUUID game.Model false = ([], none)) :
    (GetOrGenerateAnswerHandler parse descriptionsFor generate tables db f d playerUUID).2 =
      .panicked "index out of range" := by
  obtain ⟨last, hlast⟩ : ∃ last, game.Investigation.Rounds.getLast? = some last := by
    cases hl : game.Investigation.Rounds.getLast? with
    | none => exact absurd (List.getLast?_eq_none_iff.1 hl) hrounds
    | some last => exact ⟨last, rfl⟩
  have hx : randomForThisInvestigation parse game.Investigation.UUID 0 = 0 := by
    simp [randomForThisInvestigation]
  unfold GetOrGenerateAnswerHandler
  rw [if_neg hp]
  simp only [hcur, hlast, hsvc, hdesc, List.length_nil, Nat.cast_zero, hx]
  simp

/-- When `GetCurrentGame` returns an error with a game that has no rounds, the
handler indexes `Rounds[len(Rounds)-1]` before it looks at the error, and
panics. -/
theorem GetOrGenerateAnswerHandler_error_without_rounds (parse : String → Option UUID)
    (descriptionsFor : String → String → Bool → List Description × Option String)
    (generate : String → String → String → Service → String × Option String)
    (tables : ServiceStore) (db : Store) (f : Faults) (d : GameDraw) (playerUUID : String)
    (game : Game) (e : String) (hp : playerUUID ≠ "")
    (hcur : (GetCurrentGame db f d playerUUID).2 = .returned (game, some e))
    (hrounds : game.Investigation.Rounds = []) :
    (GetOrGenerateAnswerHandler parse descriptionsFor generate tables db f d playerUUID).2 =
      .panicked "index out of range [-1]" := by
  unfold GetOrGenerateAnswerHandler
  rw [if_neg hp]
  simp only [hcur, hrounds, List.getLast?_nil]

/-- When `GetCurrentGame` returns an error with a game that has a round, the
handler answers with the internal-server-error status. -/
theorem GetOrGenerateAnswerHandler_error_with_rounds (parse : String → Option UUID)
    (descriptionsFor : String → String → Bool → List Description × Option String)
    (generate : String → String → String → Service → String × Option String)
    (tables : ServiceStore) (db : Store) (f : Faults) (d : GameDraw) (playerUUID : String)
    (game : Game) (e : String) (hp : playerUUID ≠ "")
    (hcur : (GetCurrentGame db f d playerUUID).2 = .returned (game, some e))
    (hrounds : game.Investigation.Rounds ≠ []) :
    (GetOrGenerateAnswerHandler parse descriptionsFor generate tables db f d playerUUID).2 =
      .returned ⟨StatusInternalServerError,
        .text ("Error getting currentGame for player_uuid " ++ playerUUID ++ ": " ++ e)⟩ := by
  obtain ⟨last, hlast⟩ : ∃ last, game.Investigation.Rounds.getLast? = some last := by
    cases hl : game.Investigation.Rounds.getLast? with
    | none => exact absurd (List.getLast?_eq_none_iff.1 hl) hrounds
    | some last => exact ⟨last, rfl⟩
  unfold GetOrGenerateAnswerHandler
  rw [if_neg hp]
  simp only [hcur, hlast]

/-- C22 at the player `p1` of the example store, when the criminal of the
current game has no descriptions: `randomForThisInvestigation` returns 0 for 0
choices and the handler reads `descriptions[0]` of the empty list, which is out
of range: it panics instead of answering. -/
theorem GetOrGenerateAnswerHandler_empty_descriptions_panics :
    randomForThisInvestigation exampleParse "i1" 0 = 0 ∧
      (GetOrGenerateAnswerHandler exampleParse (fun _ _ _ => ([], none)) exampleGenerate
        exampleServiceStore (exampleStore []) {} exampleGameDraw "p1").2 =
        .panicked "index out of range" ∧
      (GetOrGenerateAnswerHandler exampleParse (fun _ _ _ => ([], none)) exampleGenerate
        exampleServiceStore (exampleStore []) {} exampleGameDraw "p1").2.result = none := by
  decide

/-- C23 at the player `p1` of the example store, when the query of
`GetCurrentGame` fails: the returned game has no rounds, and the handler panics
on `Rounds[len(Rounds)-1]` instead of answering with the internal-server-error
response.  The same happens for the new player `p2` when the catalogue has no
question, so that the game is created without a round. -/
theorem GetOrGenerateAnswerHandler_error_panics :
    ((GetCurrentGame (exampleStore []) { selectGame := true } exampleGameDraw "p1").2.result.map
        (fun r => (r.1.Investigation.Rounds, r.2)) = some ([], some "storage failure") ∧
      (GetOrGenerateAnswerHandler exampleParse (fun _ _ _ => ([], none)) exampleGenerate
        exampleServiceStore (exampleStore []) { selectGame := true } exampleGameDraw "p1").2 =
        .panicked "index out of range [-1]") ∧
    ((GetCurrentGame { exampleStore [] with questions := [] } {} exampleGameDraw
        "p2").2.result.map (fun r => (r.1.Investigation.Rounds, r.2)) =
        some ([], some "sql: no rows in result set") ∧
      (GetOrGenerateAnswerHandler exampleParse (fun _ _ _ => ([], none)) exampleGenerate
        exampleServiceStore { exampleStore [] with questions := [] } {} exampleGameDraw
        "p2").2 = .panicked "index out of range [-1]") := by
  decide

end ArtificialWitness
